import Mathlib

/-! TPS65185 register interface.

A shallow embedding of `TPS65185.hpp` (class `TPS65185_Base`): the register
addresses, the bit-field masks, defaults and named values, and the sixteen
`setR` / `getR` accessors, which reach the chip only through the four pure
virtual functions `read8`, `read16` and the two overloads of `write`.

Machine integers are natural numbers; a value passed as `uint8_t` is reduced
modulo `2^8` and one passed as `uint16_t` modulo `2^16`.
-/

namespace TPS65185_Base

/-- Conversion to `uint8_t`. -/
def u8 (x : Nat) : Nat := x % 2 ^ 8

/-- Conversion to `uint16_t`. -/
def u16 (x : Nat) : Nat := x % 2 ^ 16

/-- One bit-field of a register: the nested struct's name, its `dflt` constant
when it declares one, its `mask`, and its remaining named constants. -/
structure BitField where
  name : String
  dflt : Option Nat
  mask : Nat
  values : List (String × Nat)

/-- Register TMST_VALUE: address and bit-field constants. -/
def TMST_VALUE.__address : Nat := 0
def TMST_VALUE.TEMP.mask : Nat := 0b11111111

/-- Register ENABLE: address and bit-field constants. -/
def ENABLE.__address : Nat := 1
def ENABLE.ACTIVE.dflt : Nat := 0b0
def ENABLE.ACTIVE.mask : Nat := 0b10000000
def ENABLE.STANDBY.dflt : Nat := 0b0
def ENABLE.STANDBY.mask : Nat := 0b01000000
def ENABLE.V3P3_EN.dflt : Nat := 0b0
def ENABLE.V3P3_EN.mask : Nat := 0b00100000
def ENABLE.VCOM_EN.dflt : Nat := 0b0
def ENABLE.VCOM_EN.mask : Nat := 0b00010000
def ENABLE.VDDH_EN.dflt : Nat := 0b0
def ENABLE.VDDH_EN.mask : Nat := 0b00001000
def ENABLE.VPOS_EN.dflt : Nat := 0b0
def ENABLE.VPOS_EN.mask : Nat := 0b00000100
def ENABLE.VEE_EN.dflt : Nat := 0b0
def ENABLE.VEE_EN.mask : Nat := 0b00000010
def ENABLE.VNEG_EN.dflt : Nat := 0b0
def ENABLE.VNEG_EN.mask : Nat := 0b00000001

/-- Register VADJ: address and bit-field constants. -/
def VADJ.__address : Nat := 2
def VADJ.unused_0.dflt : Nat := 0b00100
def VADJ.unused_0.mask : Nat := 0b11111000
def VADJ.VSET.dflt : Nat := 0b011
def VADJ.VSET.mask : Nat := 0b00000111
def VADJ.VSET.unused_0 : Nat := 0b00
def VADJ.VSET.unused_1 : Nat := 0b01
def VADJ.VSET.unused_2 : Nat := 0b10
def VADJ.VSET.V15 : Nat := 0b11
def VADJ.VSET.V14_75 : Nat := 0b100
def VADJ.VSET.V14_5 : Nat := 0b101
def VADJ.VSET.V15_25 : Nat := 0b110
def VADJ.VSET.unused_3 : Nat := 0b111

/-- Register VCOM: address and bit-field constants. -/
def VCOM.__address : Nat := 3
def VCOM.ACQ.dflt : Nat := 0b0
def VCOM.ACQ.mask : Nat := 0b1000000000000000
def VCOM.PROG.dflt : Nat := 0b0
def VCOM.PROG.mask : Nat := 0b0100000000000000
def VCOM.HiZ.dflt : Nat := 0b0
def VCOM.HiZ.mask : Nat := 0b0010000000000000
def VCOM.AVG.dflt : Nat := 0b00
def VCOM.AVG.mask : Nat := 0b0001100000000000
def VCOM.AVG.AVG1x : Nat := 0b00
def VCOM.AVG.AVG2x : Nat := 0b01
def VCOM.AVG.AVG4x : Nat := 0b10
def VCOM.AVG.AVG8x : Nat := 0b11
def VCOM.unused_0.dflt : Nat := 0b10
def VCOM.unused_0.mask : Nat := 0b0000011000000000
def VCOM.VCOM_.dflt : Nat := 0b001111101
def VCOM.VCOM_.mask : Nat := 0b0000000111111111

/-- Register INT_EN1: address and bit-field constants. -/
def INT_EN1.__address : Nat := 5
def INT_EN1.DTX_EN.dflt : Nat := 0b0
def INT_EN1.DTX_EN.mask : Nat := 0b10000000
def INT_EN1.TSD_EN.dflt : Nat := 0b1
def INT_EN1.TSD_EN.mask : Nat := 0b01000000
def INT_EN1.HOT_EN.dflt : Nat := 0b1
def INT_EN1.HOT_EN.mask : Nat := 0b00100000
def INT_EN1.TMST_HOT_EN.dflt : Nat := 0b1
def INT_EN1.TMST_HOT_EN.mask : Nat := 0b00010000
def INT_EN1.TMST_COLD_EN.dflt : Nat := 0b1
def INT_EN1.TMST_COLD_EN.mask : Nat := 0b00001000
def INT_EN1.UVLO_EN.dflt : Nat := 0b1
def INT_EN1.UVLO_EN.mask : Nat := 0b00000100
def INT_EN1.ACQC_EN.dflt : Nat := 0b1
def INT_EN1.ACQC_EN.mask : Nat := 0b00000010
def INT_EN1.PRGC_EN.dflt : Nat := 0b1
def INT_EN1.PRGC_EN.mask : Nat := 0b00000001

/-- Register INT_EN2: address and bit-field constants. -/
def INT_EN2.__address : Nat := 6
def INT_EN2.VBUVEN.dflt : Nat := 0b1
def INT_EN2.VBUVEN.mask : Nat := 0b10000000
def INT_EN2.VDDHUVEN.dflt : Nat := 0b1
def INT_EN2.VDDHUVEN.mask : Nat := 0b01000000
def INT_EN2.VNUV_EN.dflt : Nat := 0b1
def INT_EN2.VNUV_EN.mask : Nat := 0b00100000
def INT_EN2.VPOSUVEN.dflt : Nat := 0b1
def INT_EN2.VPOSUVEN.mask : Nat := 0b00010000
def INT_EN2.VEEUVEN.dflt : Nat := 0b1
def INT_EN2.VEEUVEN.mask : Nat := 0b00001000
def INT_EN2.VCOMFEN.dflt : Nat := 0b1
def INT_EN2.VCOMFEN.mask : Nat := 0b00000100
def INT_EN2.VNEGUVEN.dflt : Nat := 0b1
def INT_EN2.VNEGUVEN.mask : Nat := 0b00000010
def INT_EN2.EOCEN.dflt : Nat := 0b1
def INT_EN2.EOCEN.mask : Nat := 0b00000001

/-- Register INT1: address and bit-field constants. -/
def INT1.__address : Nat := 7
def INT1.DTX.mask : Nat := 0b10000000
def INT1.TSD.mask : Nat := 0b01000000
def INT1.HOT.mask : Nat := 0b00100000
def INT1.TMST_HOT.mask : Nat := 0b00010000
def INT1.TMST_COLD.mask : Nat := 0b00001000
def INT1.UVLO.mask : Nat := 0b00000100
def INT1.ACQC.mask : Nat := 0b00000010
def INT1.PRGC.mask : Nat := 0b00000001

/-- Register INT2: address and bit-field constants. -/
def INT2.__address : Nat := 8
def INT2.VB_UV.mask : Nat := 0b10000000
def INT2.VDDH_UV.mask : Nat := 0b01000000
def INT2.VN_UV.mask : Nat := 0b00100000
def INT2.VPOS_UV.mask : Nat := 0b00010000
def INT2.VEE_UV.mask : Nat := 0b00001000
def INT2.VCOMF.mask : Nat := 0b00000100
def INT2.VNEG_UV.mask : Nat := 0b00000010
def INT2.EOC.mask : Nat := 0b00000001

/-- Register UPSEQ0: address and bit-field constants. -/
def UPSEQ0.__address : Nat := 9
def UPSEQ0.VDDH_UP.dflt : Nat := 0b11
def UPSEQ0.VDDH_UP.mask : Nat := 0b11000000
def UPSEQ0.VDDH_UP.STROBE1 : Nat := 0b00
def UPSEQ0.VDDH_UP.STROBE2 : Nat := 0b01
def UPSEQ0.VDDH_UP.STROBE3 : Nat := 0b10
def UPSEQ0.VDDH_UP.STROBE4 : Nat := 0b11
def UPSEQ0.VPOS_UP.dflt : Nat := 0b10
def UPSEQ0.VPOS_UP.mask : Nat := 0b00110000
def UPSEQ0.VPOS_UP.STROBE1 : Nat := 0b00
def UPSEQ0.VPOS_UP.STROBE2 : Nat := 0b01
def UPSEQ0.VPOS_UP.STROBE3 : Nat := 0b10
def UPSEQ0.VPOS_UP.STROBE4 : Nat := 0b11
def UPSEQ0.VEE_UP.dflt : Nat := 0b01
def UPSEQ0.VEE_UP.mask : Nat := 0b00001100
def UPSEQ0.VEE_UP.STROBE1 : Nat := 0b00
def UPSEQ0.VEE_UP.STROBE2 : Nat := 0b01
def UPSEQ0.VEE_UP.STROBE3 : Nat := 0b10
def UPSEQ0.VEE_UP.STROBE4 : Nat := 0b11
def UPSEQ0.VNEG_UP.dflt : Nat := 0b00
def UPSEQ0.VNEG_UP.mask : Nat := 0b00000011
def UPSEQ0.VNEG_UP.STROBE1 : Nat := 0b00
def UPSEQ0.VNEG_UP.STROBE2 : Nat := 0b01
def UPSEQ0.VNEG_UP.STROBE3 : Nat := 0b10
def UPSEQ0.VNEG_UP.STROBE4 : Nat := 0b11

/-- Register UPSEQ1: address and bit-field constants. -/
def UPSEQ1.__address : Nat := 10
def UPSEQ1.UDLY4.dflt : Nat := 0b01
def UPSEQ1.UDLY4.mask : Nat := 0b11000000
def UPSEQ1.UDLY4.delay3ms : Nat := 0b00
def UPSEQ1.UDLY4.delay6ms : Nat := 0b01
def UPSEQ1.UDLY4.delay9ms : Nat := 0b10
def UPSEQ1.UDLY4.delay12ms : Nat := 0b11
def UPSEQ1.UDLY3.dflt : Nat := 0b01
def UPSEQ1.UDLY3.mask : Nat := 0b00110000
def UPSEQ1.UDLY3.delay3ms : Nat := 0b00
def UPSEQ1.UDLY3.delay6ms : Nat := 0b01
def UPSEQ1.UDLY3.delay9ms : Nat := 0b10
def UPSEQ1.UDLY3.delay12ms : Nat := 0b11
def UPSEQ1.UDLY2.dflt : Nat := 0b01
def UPSEQ1.UDLY2.mask : Nat := 0b00001100
def UPSEQ1.UDLY2.delay3ms : Nat := 0b00
def UPSEQ1.UDLY2.delay6ms : Nat := 0b01
def UPSEQ1.UDLY2.delay9ms : Nat := 0b10
def UPSEQ1.UDLY2.delay12ms : Nat := 0b11
def UPSEQ1.UDLY.dflt : Nat := 0b01
def UPSEQ1.UDLY.mask : Nat := 0b00000011
def UPSEQ1.UDLY.delay3ms : Nat := 0b00
def UPSEQ1.UDLY.delay6ms : Nat := 0b01
def UPSEQ1.UDLY.delay9ms : Nat := 0b10
def UPSEQ1.UDLY.delay12ms : Nat := 0b11

/-- Register DWNSEQ0: address and bit-field constants. -/
def DWNSEQ0.__address : Nat := 11
def DWNSEQ0.VDDH_DWN.dflt : Nat := 0b00
def DWNSEQ0.VDDH_DWN.mask : Nat := 0b11000000
def DWNSEQ0.VDDH_DWN.STROBE1 : Nat := 0b00
def DWNSEQ0.VDDH_DWN.STROBE2 : Nat := 0b01
def DWNSEQ0.VDDH_DWN.STROBE3 : Nat := 0b10
def DWNSEQ0.VDDH_DWN.STROBE4 : Nat := 0b11
def DWNSEQ0.VPOS_DWN.dflt : Nat := 0b01
def DWNSEQ0.VPOS_DWN.mask : Nat := 0b00110000
def DWNSEQ0.VPOS_DWN.STROBE1 : Nat := 0b00
def DWNSEQ0.VPOS_DWN.STROBE2 : Nat := 0b01
def DWNSEQ0.VPOS_DWN.STROBE3 : Nat := 0b10
def DWNSEQ0.VPOS_DWN.STROBE4 : Nat := 0b11
def DWNSEQ0.VEE_DWN.dflt : Nat := 0b11
def DWNSEQ0.VEE_DWN.mask : Nat := 0b00001100
def DWNSEQ0.VEE_DWN.STROBE1 : Nat := 0b00
def DWNSEQ0.VEE_DWN.STROBE2 : Nat := 0b01
def DWNSEQ0.VEE_DWN.STROBE3 : Nat := 0b10
def DWNSEQ0.VEE_DWN.STROBE4 : Nat := 0b11
def DWNSEQ0.VNEG_DWN.dflt : Nat := 0b10
def DWNSEQ0.VNEG_DWN.mask : Nat := 0b00000011
def DWNSEQ0.VNEG_DWN.STROBE1 : Nat := 0b00
def DWNSEQ0.VNEG_DWN.STROBE2 : Nat := 0b01
def DWNSEQ0.VNEG_DWN.STROBE3 : Nat := 0b10
def DWNSEQ0.VNEG_DWN.STROBE4 : Nat := 0b11

/-- Register DWNSEQ1: address and bit-field constants. -/
def DWNSEQ1.__address : Nat := 12
def DWNSEQ1.DDLY4.dflt : Nat := 0b11
def DWNSEQ1.DDLY4.mask : Nat := 0b11000000
def DWNSEQ1.DDLY4.delay6ms : Nat := 0b00
def DWNSEQ1.DDLY4.delay12ms : Nat := 0b01
def DWNSEQ1.DDLY4.delay24ms : Nat := 0b10
def DWNSEQ1.DDLY4.delay48ms : Nat := 0b11
def DWNSEQ1.DDLY3.dflt : Nat := 0b10
def DWNSEQ1.DDLY3.mask : Nat := 0b00110000
def DWNSEQ1.DDLY3.delay6ms : Nat := 0b00
def DWNSEQ1.DDLY3.delay12ms : Nat := 0b01
def DWNSEQ1.DDLY3.delay24ms : Nat := 0b10
def DWNSEQ1.DDLY3.delay48ms : Nat := 0b11
def DWNSEQ1.DDLY2.dflt : Nat := 0b00
def DWNSEQ1.DDLY2.mask : Nat := 0b00001100
def DWNSEQ1.DDLY2.delay6ms : Nat := 0b00
def DWNSEQ1.DDLY2.delay12ms : Nat := 0b01
def DWNSEQ1.DDLY2.delay24ms : Nat := 0b10
def DWNSEQ1.DDLY2.delay48ms : Nat := 0b11
def DWNSEQ1.DDLY1.dflt : Nat := 0b0
def DWNSEQ1.DDLY1.mask : Nat := 0b00000010
def DWNSEQ1.DDLY1.delay3ms : Nat := 0b0
def DWNSEQ1.DDLY1.delay6ms : Nat := 0b1
def DWNSEQ1.DFCTR.dflt : Nat := 0b0
def DWNSEQ1.DFCTR.mask : Nat := 0b00000001
def DWNSEQ1.DFCTR.multiply1x : Nat := 0b0
def DWNSEQ1.DFCTR.multiply16x : Nat := 0b1

/-- Register TMST1: address and bit-field constants. -/
def TMST1.__address : Nat := 13
def TMST1.READ_THERM.dflt : Nat := 0b0
def TMST1.READ_THERM.mask : Nat := 0b10000000
def TMST1.unused_0.dflt : Nat := 0b0
def TMST1.unused_0.mask : Nat := 0b01000000
def TMST1.CONV_END.dflt : Nat := 0b1
def TMST1.CONV_END.mask : Nat := 0b00100000
def TMST1.unused_1.dflt : Nat := 0b0
def TMST1.unused_1.mask : Nat := 0b00010000
def TMST1.unused_2.dflt : Nat := 0b0
def TMST1.unused_2.mask : Nat := 0b00001000
def TMST1.unused_3.dflt : Nat := 0b0
def TMST1.unused_3.mask : Nat := 0b00000100
def TMST1.DT.dflt : Nat := 0b00
def TMST1.DT.mask : Nat := 0b00000011
def TMST1.DT.TEMP2C : Nat := 0b00
def TMST1.DT.TEMP3C : Nat := 0b01
def TMST1.DT.TEMP4C : Nat := 0b10
def TMST1.DT.TEMP5C : Nat := 0b11

/-- Register TMST2: address and bit-field constants. -/
def TMST2.__address : Nat := 14
def TMST2.TMST_COLD.dflt : Nat := 0b0111
def TMST2.TMST_COLD.mask : Nat := 0b11110000
def TMST2.TMST_HOT.dflt : Nat := 0b1000
def TMST2.TMST_HOT.mask : Nat := 0b00001111

/-- Register PG: address and bit-field constants. -/
def PG.__address : Nat := 15
def PG.VB_PG.dflt : Nat := 0b0
def PG.VB_PG.mask : Nat := 0b10000000
def PG.VDDH_PG.dflt : Nat := 0b0
def PG.VDDH_PG.mask : Nat := 0b01000000
def PG.VN_PG.dflt : Nat := 0b0
def PG.VN_PG.mask : Nat := 0b00100000
def PG.VPOS_PG.dflt : Nat := 0b0
def PG.VPOS_PG.mask : Nat := 0b00010000
def PG.VEE_PG.dflt : Nat := 0b0
def PG.VEE_PG.mask : Nat := 0b00001000
def PG.unused_0.dflt : Nat := 0b0
def PG.unused_0.mask : Nat := 0b00000100
def PG.VNEG_PG.dflt : Nat := 0b0
def PG.VNEG_PG.mask : Nat := 0b00000010
def PG.unused_1.dflt : Nat := 0b0
def PG.unused_1.mask : Nat := 0b00000001

/-- Register REVID: address and bit-field constants. -/
def REVID.__address : Nat := 16
def REVID.MJREV.dflt : Nat := 0b01
def REVID.MJREV.mask : Nat := 0b11000000
def REVID.MJREV.TPS65185_1p0 : Nat := 0b00
def REVID.MJREV.TPS65185_1p1 : Nat := 0b01
def REVID.MJREV.TPS65185_1p2 : Nat := 0b10
def REVID.MNREV.dflt : Nat := 0b00
def REVID.MNREV.mask : Nat := 0b00110000
def REVID.VERSION.dflt : Nat := 0b0101
def REVID.VERSION.mask : Nat := 0b00001111

/-- Field table of register TMST_VALUE, in declaration order. -/
def TMST_VALUE.fields : List BitField :=
  [⟨"TEMP", none, TMST_VALUE.TEMP.mask, []⟩]

/-- Field table of register ENABLE, in declaration order. -/
def ENABLE.fields : List BitField :=
  [⟨"ACTIVE", some ENABLE.ACTIVE.dflt, ENABLE.ACTIVE.mask, []⟩,
   ⟨"STANDBY", some ENABLE.STANDBY.dflt, ENABLE.STANDBY.mask, []⟩,
   ⟨"V3P3_EN", some ENABLE.V3P3_EN.dflt, ENABLE.V3P3_EN.mask, []⟩,
   ⟨"VCOM_EN", some ENABLE.VCOM_EN.dflt, ENABLE.VCOM_EN.mask, []⟩,
   ⟨"VDDH_EN", some ENABLE.VDDH_EN.dflt, ENABLE.VDDH_EN.mask, []⟩,
   ⟨"VPOS_EN", some ENABLE.VPOS_EN.dflt, ENABLE.VPOS_EN.mask, []⟩,
   ⟨"VEE_EN", some ENABLE.VEE_EN.dflt, ENABLE.VEE_EN.mask, []⟩,
   ⟨"VNEG_EN", some ENABLE.VNEG_EN.dflt, ENABLE.VNEG_EN.mask, []⟩]

/-- Field table of register VADJ, in declaration order. -/
def VADJ.fields : List BitField :=
  [⟨"unused_0", some VADJ.unused_0.dflt, VADJ.unused_0.mask, []⟩,
   ⟨"VSET", some VADJ.VSET.dflt, VADJ.VSET.mask, [("unused_0", VADJ.VSET.unused_0), ("unused_1", VADJ.VSET.unused_1), ("unused_2", VADJ.VSET.unused_2), ("V15", VADJ.VSET.V15), ("V14_75", VADJ.VSET.V14_75), ("V14_5", VADJ.VSET.V14_5), ("V15_25", VADJ.VSET.V15_25), ("unused_3", VADJ.VSET.unused_3)]⟩]

/-- Field table of register VCOM, in declaration order. -/
def VCOM.fields : List BitField :=
  [⟨"ACQ", some VCOM.ACQ.dflt, VCOM.ACQ.mask, []⟩,
   ⟨"PROG", some VCOM.PROG.dflt, VCOM.PROG.mask, []⟩,
   ⟨"HiZ", some VCOM.HiZ.dflt, VCOM.HiZ.mask, []⟩,
   ⟨"AVG", some VCOM.AVG.dflt, VCOM.AVG.mask, [("AVG1x", VCOM.AVG.AVG1x), ("AVG2x", VCOM.AVG.AVG2x), ("AVG4x", VCOM.AVG.AVG4x), ("AVG8x", VCOM.AVG.AVG8x)]⟩,
   ⟨"unused_0", some VCOM.unused_0.dflt, VCOM.unused_0.mask, []⟩,
   ⟨"VCOM_", some VCOM.VCOM_.dflt, VCOM.VCOM_.mask, []⟩]

/-- Field table of register INT_EN1, in declaration order. -/
def INT_EN1.fields : List BitField :=
  [⟨"DTX_EN", some INT_EN1.DTX_EN.dflt, INT_EN1.DTX_EN.mask, []⟩,
   ⟨"TSD_EN", some INT_EN1.TSD_EN.dflt, INT_EN1.TSD_EN.mask, []⟩,
   ⟨"HOT_EN", some INT_EN1.HOT_EN.dflt, INT_EN1.HOT_EN.mask, []⟩,
   ⟨"TMST_HOT_EN", some INT_EN1.TMST_HOT_EN.dflt, INT_EN1.TMST_HOT_EN.mask, []⟩,
   ⟨"TMST_COLD_EN", some INT_EN1.TMST_COLD_EN.dflt, INT_EN1.TMST_COLD_EN.mask, []⟩,
   ⟨"UVLO_EN", some INT_EN1.UVLO_EN.dflt, INT_EN1.UVLO_EN.mask, []⟩,
   ⟨"ACQC_EN", some INT_EN1.ACQC_EN.dflt, INT_EN1.ACQC_EN.mask, []⟩,
   ⟨"PRGC_EN", some INT_EN1.PRGC_EN.dflt, INT_EN1.PRGC_EN.mask, []⟩]

/-- Field table of register INT_EN2, in declaration order. -/
def INT_EN2.fields : List BitField :=
  [⟨"VBUVEN", some INT_EN2.VBUVEN.dflt, INT_EN2.VBUVEN.mask, []⟩,
   ⟨"VDDHUVEN", some INT_EN2.VDDHUVEN.dflt, INT_EN2.VDDHUVEN.mask, []⟩,
   ⟨"VNUV_EN", some INT_EN2.VNUV_EN.dflt, INT_EN2.VNUV_EN.mask, []⟩,
   ⟨"VPOSUVEN", some INT_EN2.VPOSUVEN.dflt, INT_EN2.VPOSUVEN.mask, []⟩,
   ⟨"VEEUVEN", some INT_EN2.VEEUVEN.dflt, INT_EN2.VEEUVEN.mask, []⟩,
   ⟨"VCOMFEN", some INT_EN2.VCOMFEN.dflt, INT_EN2.VCOMFEN.mask, []⟩,
   ⟨"VNEGUVEN", some INT_EN2.VNEGUVEN.dflt, INT_EN2.VNEGUVEN.mask, []⟩,
   ⟨"EOCEN", some INT_EN2.EOCEN.dflt, INT_EN2.EOCEN.mask, []⟩]

/-- Field table of register INT1, in declaration order. -/
def INT1.fields : List BitField :=
  [⟨"DTX", none, INT1.DTX.mask, []⟩,
   ⟨"TSD", none, INT1.TSD.mask, []⟩,
   ⟨"HOT", none, INT1.HOT.mask, []⟩,
   ⟨"TMST_HOT", none, INT1.TMST_HOT.mask, []⟩,
   ⟨"TMST_COLD", none, INT1.TMST_COLD.mask, []⟩,
   ⟨"UVLO", none, INT1.UVLO.mask, []⟩,
   ⟨"ACQC", none, INT1.ACQC.mask, []⟩,
   ⟨"PRGC", none, INT1.PRGC.mask, []⟩]

/-- Field table of register INT2, in declaration order. -/
def INT2.fields : List BitField :=
  [⟨"VB_UV", none, INT2.VB_UV.mask, []⟩,
   ⟨"VDDH_UV", none, INT2.VDDH_UV.mask, []⟩,
   ⟨"VN_UV", none, INT2.VN_UV.mask, []⟩,
   ⟨"VPOS_UV", none, INT2.VPOS_UV.mask, []⟩,
   ⟨"VEE_UV", none, INT2.VEE_UV.mask, []⟩,
   ⟨"VCOMF", none, INT2.VCOMF.mask, []⟩,
   ⟨"VNEG_UV", none, INT2.VNEG_UV.mask, []⟩,
   ⟨"EOC", none, INT2.EOC.mask, []⟩]

/-- Field table of register UPSEQ0, in declaration order. -/
def UPSEQ0.fields : List BitField :=
  [⟨"VDDH_UP", some UPSEQ0.VDDH_UP.dflt, UPSEQ0.VDDH_UP.mask, [("STROBE1", UPSEQ0.VDDH_UP.STROBE1), ("STROBE2", UPSEQ0.VDDH_UP.STROBE2), ("STROBE3", UPSEQ0.VDDH_UP.STROBE3), ("STROBE4", UPSEQ0.VDDH_UP.STROBE4)]⟩,
   ⟨"VPOS_UP", some UPSEQ0.VPOS_UP.dflt, UPSEQ0.VPOS_UP.mask, [("STROBE1", UPSEQ0.VPOS_UP.STROBE1), ("STROBE2", UPSEQ0.VPOS_UP.STROBE2), ("STROBE3", UPSEQ0.VPOS_UP.STROBE3), ("STROBE4", UPSEQ0.VPOS_UP.STROBE4)]⟩,
   ⟨"VEE_UP", some UPSEQ0.VEE_UP.dflt, UPSEQ0.VEE_UP.mask, [("STROBE1", UPSEQ0.VEE_UP.STROBE1), ("STROBE2", UPSEQ0.VEE_UP.STROBE2), ("STROBE3", UPSEQ0.VEE_UP.STROBE3), ("STROBE4", UPSEQ0.VEE_UP.STROBE4)]⟩,
   ⟨"VNEG_UP", some UPSEQ0.VNEG_UP.dflt, UPSEQ0.VNEG_UP.mask, [("STROBE1", UPSEQ0.VNEG_UP.STROBE1), ("STROBE2", UPSEQ0.VNEG_UP.STROBE2), ("STROBE3", UPSEQ0.VNEG_UP.STROBE3), ("STROBE4", UPSEQ0.VNEG_UP.STROBE4)]⟩]

/-- Field table of register UPSEQ1, in declaration order. -/
def UPSEQ1.fields : List BitField :=
  [⟨"UDLY4", some UPSEQ1.UDLY4.dflt, UPSEQ1.UDLY4.mask, [("delay3ms", UPSEQ1.UDLY4.delay3ms), ("delay6ms", UPSEQ1.UDLY4.delay6ms), ("delay9ms", UPSEQ1.UDLY4.delay9ms), ("delay12ms", UPSEQ1.UDLY4.delay12ms)]⟩,
   ⟨"UDLY3", some UPSEQ1.UDLY3.dflt, UPSEQ1.UDLY3.mask, [("delay3ms", UPSEQ1.UDLY3.delay3ms), ("delay6ms", UPSEQ1.UDLY3.delay6ms), ("delay9ms", UPSEQ1.UDLY3.delay9ms), ("delay12ms", UPSEQ1.UDLY3.delay12ms)]⟩,
   ⟨"UDLY2", some UPSEQ1.UDLY2.dflt, UPSEQ1.UDLY2.mask, [("delay3ms", UPSEQ1.UDLY2.delay3ms), ("delay6ms", UPSEQ1.UDLY2.delay6ms), ("delay9ms", UPSEQ1.UDLY2.delay9ms), ("delay12ms", UPSEQ1.UDLY2.delay12ms)]⟩,
   ⟨"UDLY", some UPSEQ1.UDLY.dflt, UPSEQ1.UDLY.mask, [("delay3ms", UPSEQ1.UDLY.delay3ms), ("delay6ms", UPSEQ1.UDLY.delay6ms), ("delay9ms", UPSEQ1.UDLY.delay9ms), ("delay12ms", UPSEQ1.UDLY.delay12ms)]⟩]

/-- Field table of register DWNSEQ0, in declaration order. -/
def DWNSEQ0.fields : List BitField :=
  [⟨"VDDH_DWN", some DWNSEQ0.VDDH_DWN.dflt, DWNSEQ0.VDDH_DWN.mask, [("STROBE1", DWNSEQ0.VDDH_DWN.STROBE1), ("STROBE2", DWNSEQ0.VDDH_DWN.STROBE2), ("STROBE3", DWNSEQ0.VDDH_DWN.STROBE3), ("STROBE4", DWNSEQ0.VDDH_DWN.STROBE4)]⟩,
   ⟨"VPOS_DWN", some DWNSEQ0.VPOS_DWN.dflt, DWNSEQ0.VPOS_DWN.mask, [("STROBE1", DWNSEQ0.VPOS_DWN.STROBE1), ("STROBE2", DWNSEQ0.VPOS_DWN.STROBE2), ("STROBE3", DWNSEQ0.VPOS_DWN.STROBE3), ("STROBE4", DWNSEQ0.VPOS_DWN.STROBE4)]⟩,
   ⟨"VEE_DWN", some DWNSEQ0.VEE_DWN.dflt, DWNSEQ0.VEE_DWN.mask, [("STROBE1", DWNSEQ0.VEE_DWN.STROBE1), ("STROBE2", DWNSEQ0.VEE_DWN.STROBE2), ("STROBE3", DWNSEQ0.VEE_DWN.STROBE3), ("STROBE4", DWNSEQ0.VEE_DWN.STROBE4)]⟩,
   ⟨"VNEG_DWN", some DWNSEQ0.VNEG_DWN.dflt, DWNSEQ0.VNEG_DWN.mask, [("STROBE1", DWNSEQ0.VNEG_DWN.STROBE1), ("STROBE2", DWNSEQ0.VNEG_DWN.STROBE2), ("STROBE3", DWNSEQ0.VNEG_DWN.STROBE3), ("STROBE4", DWNSEQ0.VNEG_DWN.STROBE4)]⟩]

/-- Field table of register DWNSEQ1, in declaration order. -/
def DWNSEQ1.fields : List BitField :=
  [⟨"DDLY4", some DWNSEQ1.DDLY4.dflt, DWNSEQ1.DDLY4.mask, [("delay6ms", DWNSEQ1.DDLY4.delay6ms), ("delay12ms", DWNSEQ1.DDLY4.delay12ms), ("delay24ms", DWNSEQ1.DDLY4.delay24ms), ("delay48ms", DWNSEQ1.DDLY4.delay48ms)]⟩,
   ⟨"DDLY3", some DWNSEQ1.DDLY3.dflt, DWNSEQ1.DDLY3.mask, [("delay6ms", DWNSEQ1.DDLY3.delay6ms), ("delay12ms", DWNSEQ1.DDLY3.delay12ms), ("delay24ms", DWNSEQ1.DDLY3.delay24ms), ("delay48ms", DWNSEQ1.DDLY3.delay48ms)]⟩,
   ⟨"DDLY2", some DWNSEQ1.DDLY2.dflt, DWNSEQ1.DDLY2.mask, [("delay6ms", DWNSEQ1.DDLY2.delay6ms), ("delay12ms", DWNSEQ1.DDLY2.delay12ms), ("delay24ms", DWNSEQ1.DDLY2.delay24ms), ("delay48ms", DWNSEQ1.DDLY2.delay48ms)]⟩,
   ⟨"DDLY1", some DWNSEQ1.DDLY1.dflt, DWNSEQ1.DDLY1.mask, [("delay3ms", DWNSEQ1.DDLY1.delay3ms), ("delay6ms", DWNSEQ1.DDLY1.delay6ms)]⟩,
   ⟨"DFCTR", some DWNSEQ1.DFCTR.dflt, DWNSEQ1.DFCTR.mask, [("multiply1x", DWNSEQ1.DFCTR.multiply1x), ("multiply16x", DWNSEQ1.DFCTR.multiply16x)]⟩]

/-- Field table of register TMST1, in declaration order. -/
def TMST1.fields : List BitField :=
  [⟨"READ_THERM", some TMST1.READ_THERM.dflt, TMST1.READ_THERM.mask, []⟩,
   ⟨"unused_0", some TMST1.unused_0.dflt, TMST1.unused_0.mask, []⟩,
   ⟨"CONV_END", some TMST1.CONV_END.dflt, TMST1.CONV_END.mask, []⟩,
   ⟨"unused_1", some TMST1.unused_1.dflt, TMST1.unused_1.mask, []⟩,
   ⟨"unused_2", some TMST1.unused_2.dflt, TMST1.unused_2.mask, []⟩,
   ⟨"unused_3", some TMST1.unused_3.dflt, TMST1.unused_3.mask, []⟩,
   ⟨"DT", some TMST1.DT.dflt, TMST1.DT.mask, [("TEMP2C", TMST1.DT.TEMP2C), ("TEMP3C", TMST1.DT.TEMP3C), ("TEMP4C", TMST1.DT.TEMP4C), ("TEMP5C", TMST1.DT.TEMP5C)]⟩]

/-- Field table of register TMST2, in declaration order. -/
def TMST2.fields : List BitField :=
  [⟨"TMST_COLD", some TMST2.TMST_COLD.dflt, TMST2.TMST_COLD.mask, []⟩,
   ⟨"TMST_HOT", some TMST2.TMST_HOT.dflt, TMST2.TMST_HOT.mask, []⟩]

/-- Field table of register PG, in declaration order. -/
def PG.fields : List BitField :=
  [⟨"VB_PG", some PG.VB_PG.dflt, PG.VB_PG.mask, []⟩,
   ⟨"VDDH_PG", some PG.VDDH_PG.dflt, PG.VDDH_PG.mask, []⟩,
   ⟨"VN_PG", some PG.VN_PG.dflt, PG.VN_PG.mask, []⟩,
   ⟨"VPOS_PG", some PG.VPOS_PG.dflt, PG.VPOS_PG.mask, []⟩,
   ⟨"VEE_PG", some PG.VEE_PG.dflt, PG.VEE_PG.mask, []⟩,
   ⟨"unused_0", some PG.unused_0.dflt, PG.unused_0.mask, []⟩,
   ⟨"VNEG_PG", some PG.VNEG_PG.dflt, PG.VNEG_PG.mask, []⟩,
   ⟨"unused_1", some PG.unused_1.dflt, PG.unused_1.mask, []⟩]

/-- Field table of register REVID, in declaration order. -/
def REVID.fields : List BitField :=
  [⟨"MJREV", some REVID.MJREV.dflt, REVID.MJREV.mask, [("TPS65185_1p0", REVID.MJREV.TPS65185_1p0), ("TPS65185_1p1", REVID.MJREV.TPS65185_1p1), ("TPS65185_1p2", REVID.MJREV.TPS65185_1p2)]⟩,
   ⟨"MNREV", some REVID.MNREV.dflt, REVID.MNREV.mask, []⟩,
   ⟨"VERSION", some REVID.VERSION.dflt, REVID.VERSION.mask, []⟩]

/-- The sixteen registers of the header, in declaration order. -/
inductive Reg where
  | TMST_VALUE | ENABLE | VADJ | VCOM | INT_EN1 | INT_EN2 | INT1 | INT2
  | UPSEQ0 | UPSEQ1 | DWNSEQ0 | DWNSEQ1 | TMST1 | TMST2 | PG | REVID
  deriving DecidableEq

/-- Every register, in declaration order. -/
def Reg.all : List Reg :=
  [.TMST_VALUE, .ENABLE, .VADJ, .VCOM, .INT_EN1, .INT_EN2, .INT1, .INT2,
   .UPSEQ0, .UPSEQ1, .DWNSEQ0, .DWNSEQ1, .TMST1, .TMST2, .PG, .REVID]

/-- The `__address` constant of a register. -/
def Reg.address : Reg → Nat
  | .TMST_VALUE => TMST_VALUE.__address
  | .ENABLE => ENABLE.__address
  | .VADJ => VADJ.__address
  | .VCOM => VCOM.__address
  | .INT_EN1 => INT_EN1.__address
  | .INT_EN2 => INT_EN2.__address
  | .INT1 => INT1.__address
  | .INT2 => INT2.__address
  | .UPSEQ0 => UPSEQ0.__address
  | .UPSEQ1 => UPSEQ1.__address
  | .DWNSEQ0 => DWNSEQ0.__address
  | .DWNSEQ1 => DWNSEQ1.__address
  | .TMST1 => TMST1.__address
  | .TMST2 => TMST2.__address
  | .PG => PG.__address
  | .REVID => REVID.__address

/-- The width in bits of a register: 16 for `VCOM`, whose constants and
accessors are `uint16_t`, and 8 for the others, which are `uint8_t`. -/
def Reg.width : Reg → Nat
  | .VCOM => 16
  | _ => 8

/-- The bit-fields a register declares. -/
def Reg.fields : Reg → List BitField
  | .TMST_VALUE => TMST_VALUE.fields
  | .ENABLE => ENABLE.fields
  | .VADJ => VADJ.fields
  | .VCOM => VCOM.fields
  | .INT_EN1 => INT_EN1.fields
  | .INT_EN2 => INT_EN2.fields
  | .INT1 => INT1.fields
  | .INT2 => INT2.fields
  | .UPSEQ0 => UPSEQ0.fields
  | .UPSEQ1 => UPSEQ1.fields
  | .DWNSEQ0 => DWNSEQ0.fields
  | .DWNSEQ1 => DWNSEQ1.fields
  | .TMST1 => TMST1.fields
  | .TMST2 => TMST2.fields
  | .PG => PG.fields
  | .REVID => REVID.fields

/-! ## The transport and the accessors -/

/-- A call of one of the four pure virtual functions, with the arguments as the
callee receives them. -/
inductive Call where
  | read8 (address n : Nat)
  | write8 (address value n : Nat)
  | read16 (address n : Nat)
  | write16 (address value n : Nat)
  deriving DecidableEq

/-- An implementation of the four pure virtual functions over a state `σ`:
`read8`, `write(uint16_t, uint8_t, uint16_t)`, `read16` and
`write(uint16_t, uint16_t, uint16_t)`. -/
structure Transport (σ : Type) where
  read8 : σ → Nat → Nat → Nat × σ
  write8 : σ → Nat → Nat → Nat → σ
  read16 : σ → Nat → Nat → Nat × σ
  write16 : σ → Nat → Nat → Nat → σ

/-- A device object: the state of the derived class and the calls made on its
virtual functions so far, oldest first. -/
structure Dev (σ : Type) where
  state : σ
  log : List Call

/-- Virtual call `read8(address, n)`; the result is a `uint8_t`. -/
def read8 {σ : Type} (t : Transport σ) (address n : Nat) (d : Dev σ) : Nat × Dev σ :=
  let r := t.read8 d.state (u16 address) (u16 n)
  (u8 r.1, ⟨r.2, d.log ++ [Call.read8 (u16 address) (u16 n)]⟩)

/-- Virtual call `write(address, value, n)` with a `uint8_t` value. -/
def write8 {σ : Type} (t : Transport σ) (address value n : Nat) (d : Dev σ) : Dev σ :=
  ⟨t.write8 d.state (u16 address) (u8 value) (u16 n),
   d.log ++ [Call.write8 (u16 address) (u8 value) (u16 n)]⟩

/-- Virtual call `read16(address, n)`; the result is a `uint16_t`. -/
def read16 {σ : Type} (t : Transport σ) (address n : Nat) (d : Dev σ) : Nat × Dev σ :=
  let r := t.read16 d.state (u16 address) (u16 n)
  (u16 r.1, ⟨r.2, d.log ++ [Call.read16 (u16 address) (u16 n)]⟩)

/-- Virtual call `write(address, value, n)` with a `uint16_t` value. -/
def write16 {σ : Type} (t : Transport σ) (address value n : Nat) (d : Dev σ) : Dev σ :=
  ⟨t.write16 d.state (u16 address) (u16 value) (u16 n),
   d.log ++ [Call.write16 (u16 address) (u16 value) (u16 n)]⟩

/-- Set register TMST_VALUE. -/
def setTMST_VALUE {σ : Type} (t : Transport σ) (value : Nat) (d : Dev σ) : Dev σ :=
  write8 t TMST_VALUE.__address (u8 value) 8 d

/-- Get register TMST_VALUE. -/
def getTMST_VALUE {σ : Type} (t : Transport σ) (d : Dev σ) : Nat × Dev σ :=
  read8 t TMST_VALUE.__address 8 d

/-- Set register ENABLE. -/
def setENABLE {σ : Type} (t : Transport σ) (value : Nat) (d : Dev σ) : Dev σ :=
  write8 t ENABLE.__address (u8 value) 8 d

/-- Get register ENABLE. -/
def getENABLE {σ : Type} (t : Transport σ) (d : Dev σ) : Nat × Dev σ :=
  read8 t ENABLE.__address 8 d

/-- Set register VADJ. -/
def setVADJ {σ : Type} (t : Transport σ) (value : Nat) (d : Dev σ) : Dev σ :=
  write8 t VADJ.__address (u8 value) 8 d

/-- Get register VADJ. -/
def getVADJ {σ : Type} (t : Transport σ) (d : Dev σ) : Nat × Dev σ :=
  read8 t VADJ.__address 8 d

/-- Set register VCOM. -/
def setVCOM {σ : Type} (t : Transport σ) (value : Nat) (d : Dev σ) : Dev σ :=
  write16 t VCOM.__address (u16 value) 16 d

/-- Get register VCOM. -/
def getVCOM {σ : Type} (t : Transport σ) (d : Dev σ) : Nat × Dev σ :=
  read16 t VCOM.__address 16 d

/-- Set register INT_EN1. -/
def setINT_EN1 {σ : Type} (t : Transport σ) (value : Nat) (d : Dev σ) : Dev σ :=
  write8 t INT_EN1.__address (u8 value) 8 d

/-- Get register INT_EN1. -/
def getINT_EN1 {σ : Type} (t : Transport σ) (d : Dev σ) : Nat × Dev σ :=
  read8 t INT_EN1.__address 8 d

/-- Set register INT_EN2. -/
def setINT_EN2 {σ : Type} (t : Transport σ) (value : Nat) (d : Dev σ) : Dev σ :=
  write8 t INT_EN2.__address (u8 value) 8 d

/-- Get register INT_EN2. -/
def getINT_EN2 {σ : Type} (t : Transport σ) (d : Dev σ) : Nat × Dev σ :=
  read8 t INT_EN2.__address 8 d

/-- Set register INT1. -/
def setINT1 {σ : Type} (t : Transport σ) (value : Nat) (d : Dev σ) : Dev σ :=
  write8 t INT1.__address (u8 value) 8 d

/-- Get register INT1. -/
def getINT1 {σ : Type} (t : Transport σ) (d : Dev σ) : Nat × Dev σ :=
  read8 t INT1.__address 8 d

/-- Set register INT2. -/
def setINT2 {σ : Type} (t : Transport σ) (value : Nat) (d : Dev σ) : Dev σ :=
  write8 t INT2.__address (u8 value) 8 d

/-- Get register INT2. -/
def getINT2 {σ : Type} (t : Transport σ) (d : Dev σ) : Nat × Dev σ :=
  read8 t INT2.__address 8 d

/-- Set register UPSEQ0. -/
def setUPSEQ0 {σ : Type} (t : Transport σ) (value : Nat) (d : Dev σ) : Dev σ :=
  write8 t UPSEQ0.__address (u8 value) 8 d

/-- Get register UPSEQ0. -/
def getUPSEQ0 {σ : Type} (t : Transport σ) (d : Dev σ) : Nat × Dev σ :=
  read8 t UPSEQ0.__address 8 d

/-- Set register UPSEQ1. -/
def setUPSEQ1 {σ : Type} (t : Transport σ) (value : Nat) (d : Dev σ) : Dev σ :=
  write8 t UPSEQ1.__address (u8 value) 8 d

/-- Get register UPSEQ1. -/
def getUPSEQ1 {σ : Type} (t : Transport σ) (d : Dev σ) : Nat × Dev σ :=
  read8 t UPSEQ1.__address 8 d

/-- Set register DWNSEQ0. -/
def setDWNSEQ0 {σ : Type} (t : Transport σ) (value : Nat) (d : Dev σ) : Dev σ :=
  write8 t DWNSEQ0.__address (u8 value) 8 d

/-- Get register DWNSEQ0. -/
def getDWNSEQ0 {σ : Type} (t : Transport σ) (d : Dev σ) : Nat × Dev σ :=
  read8 t DWNSEQ0.__address 8 d

/-- Set register DWNSEQ1. -/
def setDWNSEQ1 {σ : Type} (t : Transport σ) (value : Nat) (d : Dev σ) : Dev σ :=
  write8 t DWNSEQ1.__address (u8 value) 8 d

/-- Get register DWNSEQ1. -/
def getDWNSEQ1 {σ : Type} (t : Transport σ) (d : Dev σ) : Nat × Dev σ :=
  read8 t DWNSEQ1.__address 8 d

/-- Set register TMST1. -/
def setTMST1 {σ : Type} (t : Transport σ) (value : Nat) (d : Dev σ) : Dev σ :=
  write8 t TMST1.__address (u8 value) 8 d

/-- Get register TMST1. -/
def getTMST1 {σ : Type} (t : Transport σ) (d : Dev σ) : Nat × Dev σ :=
  read8 t TMST1.__address 8 d

/-- Set register TMST2. -/
def setTMST2 {σ : Type} (t : Transport σ) (value : Nat) (d : Dev σ) : Dev σ :=
  write8 t TMST2.__address (u8 value) 8 d

/-- Get register TMST2. -/
def getTMST2 {σ : Type} (t : Transport σ) (d : Dev σ) : Nat × Dev σ :=
  read8 t TMST2.__address 8 d

/-- Set register PG. -/
def setPG {σ : Type} (t : Transport σ) (value : Nat) (d : Dev σ) : Dev σ :=
  write8 t PG.__address (u8 value) 8 d

/-- Get register PG. -/
def getPG {σ : Type} (t : Transport σ) (d : Dev σ) : Nat × Dev σ :=
  read8 t PG.__address 8 d

/-- Set register REVID. -/
def setREVID {σ : Type} (t : Transport σ) (value : Nat) (d : Dev σ) : Dev σ :=
  write8 t REVID.__address (u8 value) 8 d

/-- Get register REVID. -/
def getREVID {σ : Type} (t : Transport σ) (d : Dev σ) : Nat × Dev σ :=
  read8 t REVID.__address 8 d

/-- The getter of a register. -/
def Reg.get {σ : Type} (t : Transport σ) : Reg → Dev σ → Nat × Dev σ
  | .TMST_VALUE => getTMST_VALUE t
  | .ENABLE => getENABLE t
  | .VADJ => getVADJ t
  | .VCOM => getVCOM t
  | .INT_EN1 => getINT_EN1 t
  | .INT_EN2 => getINT_EN2 t
  | .INT1 => getINT1 t
  | .INT2 => getINT2 t
  | .UPSEQ0 => getUPSEQ0 t
  | .UPSEQ1 => getUPSEQ1 t
  | .DWNSEQ0 => getDWNSEQ0 t
  | .DWNSEQ1 => getDWNSEQ1 t
  | .TMST1 => getTMST1 t
  | .TMST2 => getTMST2 t
  | .PG => getPG t
  | .REVID => getREVID t

/-- The setter of a register. -/
def Reg.set {σ : Type} (t : Transport σ) : Reg → Nat → Dev σ → Dev σ
  | .TMST_VALUE => setTMST_VALUE t
  | .ENABLE => setENABLE t
  | .VADJ => setVADJ t
  | .VCOM => setVCOM t
  | .INT_EN1 => setINT_EN1 t
  | .INT_EN2 => setINT_EN2 t
  | .INT1 => setINT1 t
  | .INT2 => setINT2 t
  | .UPSEQ0 => setUPSEQ0 t
  | .UPSEQ1 => setUPSEQ1 t
  | .DWNSEQ0 => setDWNSEQ0 t
  | .DWNSEQ1 => setDWNSEQ1 t
  | .TMST1 => setTMST1 t
  | .TMST2 => setTMST2 t
  | .PG => setPG t
  | .REVID => setREVID t
/-- True for the two `write` overloads. -/
def Call.isWrite : Call → Bool
  | .write8 _ _ _ => true
  | .write16 _ _ _ => true
  | _ => false

/-- The address argument of a call. -/
def Call.address : Call → Nat
  | .read8 a _ => a
  | .write8 a _ _ => a
  | .read16 a _ => a
  | .write16 a _ _ => a

/-- An operation of the interface: one of the sixteen getters, or one of the
sixteen setters with its argument. -/
inductive Op where
  | get (r : Reg)
  | set (r : Reg) (value : Nat)

/-- Running an operation on a device. -/
def Op.run {σ : Type} (t : Transport σ) : Op → Dev σ → Dev σ
  | .get r, d => (r.get t d).2
  | .set r v, d => r.set t v d

/-- The virtual calls an operation makes: what it appends to the log. -/
def Op.issued {σ : Type} (t : Transport σ) (op : Op) (d : Dev σ) : List Call :=
  (op.run t d).log.drop d.log.length

/-- A transport over a register file `address → value`: reads return the stored
value and writes store theirs. -/
def memTransport : Transport (Nat → Nat) where
  read8 := fun m a _ => (m a, m)
  write8 := fun m a v _ => fun x => if x = a then v else m x
  read16 := fun m a _ => (m a, m)
  write16 := fun m a v _ => fun x => if x = a then v else m x

/-- A fresh device over `memTransport`, every register reading zero. -/
def memDev : Dev (Nat → Nat) := ⟨fun _ => 0, []⟩

/-! ## Bit-field arithmetic -/

/-- The number of zero bits below the lowest set bit of `m`, looking at no
more than `fuel` bits. -/
def lowZeros : Nat → Nat → Nat
  | 0, _ => 0
  | fuel + 1, m => if m % 2 = 1 then 0 else lowZeros fuel (m / 2) + 1

/-- The number of set bits among the lowest `fuel` bits of `m`. -/
def setBits : Nat → Nat → Nat
  | 0, _ => 0
  | fuel + 1, m => if m = 0 then 0 else m % 2 + setBits fuel (m / 2)

/-- The position of the lowest set bit of a mask, which is the shift of its
field: the specification's `trailing_zero_count(mask)`; zero for the empty
mask. -/
def trailing_zero_count (m : Nat) : Nat :=
  lowZeros m m

/-- The bit-width of a mask: its number of set bits. -/
def popcount (m : Nat) : Nat :=
  setBits m m

/-- The complement `~m` of a mask within a register of `w` bits. -/
def complement (w m : Nat) : Nat := 2 ^ w - 1 - m

/-- Modelled from the spec: `decode(raw, spec) = (raw & spec.mask) >>
trailing_zero_count(spec.mask)`; the header has no decode function. -/
def decode (mask raw : Nat) : Nat :=
  (raw &&& mask) >>> trailing_zero_count mask

/-- Modelled from the spec: `encode(raw, spec, v) = (raw & ~spec.mask) |
((v << trailing_zero_count(spec.mask)) & spec.mask)` on a register of `w` bits;
the header has no encode function. -/
def encode (w mask raw v : Nat) : Nat :=
  (raw &&& complement w mask) ||| ((v <<< trailing_zero_count mask) &&& mask)

/-- The default of a register: each field's `dflt` (zero when it declares
none) shifted to the position of its mask, all OR-ed together. -/
def resetValue (fields : List BitField) : Nat :=
  fields.foldl (fun acc f => acc ||| (f.dflt.getD 0 <<< trailing_zero_count f.mask)) 0

/-- True for the padding fields, those named `unused_*`. -/
def BitField.isUnused (f : BitField) : Bool :=
  "unused_".toList.isPrefixOf f.name.toList

/-- The OR of all the field masks of a register. -/
def coverage (fields : List BitField) : Nat :=
  (fields.map (fun f => f.mask)).foldr (fun m acc => m ||| acc) 0

/-- The register value put together from the decoded fields of `raw`: each
decoded field shifted back to the position of its mask, all OR-ed together. -/
def reassemble (fields : List BitField) (raw : Nat) : Nat :=
  (fields.map (fun f => decode f.mask raw <<< trailing_zero_count f.mask)).foldr
    (fun x acc => x ||| acc) 0

/-! ## Documented units -/

/-- The rows of the header's comment on register `TMST_VALUE`: a raw byte and
the temperature in degrees Celsius it stands for. -/
def TMST_VALUE.rows : List (Nat × Int) :=
  [(0b11110110, -10), (0b11110111, -9), (0b11111110, -2), (0b11111111, -1),
   (0b00000000, 0), (0b00000001, 1), (0b00000010, 2), (0b00011001, 25),
   (0b01010101, 85)]

/-- The header's formula on field `VCOM_`: `VCOM = -10 mV * VCOM[8:0]`, in
millivolts. -/
def VCOM.VCOM_.millivolts (code : Nat) : Int := -10 * (code : Int)

/-- The rows of the header's comment on field `VCOM_`: a code and the voltage in
millivolts it stands for. -/
def VCOM.VCOM_.rows : List (Nat × Int) :=
  [(0x000, 0), (0x001, -10), (0x002, -20), (0x07D, -1250), (0x1FE, -5100),
   (0x1FF, -5110)]

/-- The header's formula on field `TMST_COLD` of `TMST2`: `temp = -7C +
TMST_COLD`, in degrees Celsius. -/
def TMST2.TMST_COLD.celsius (v : Nat) : Int := -7 + (v : Int)

/-- The header's formula on field `TMST_HOT` of `TMST2`: `temp = 42C +
TMST_HOT`, in degrees Celsius. -/
def TMST2.TMST_HOT.celsius (v : Nat) : Int := 42 + (v : Int)

/-! ## The two sequencers of the specification -/

/-- Modelled from the spec: the error kinds of section 7; the header has no
error type. -/
inductive Error where
  | TransportError
  | OutOfRange
  | Timeout
  deriving DecidableEq

/-- Modelled from the spec: the decoding of a raw byte "as signed 8-bit
two's-complement integer" of section 4.5, in which bit 7 weighs -128 and the
seven bits below it keep their weight; the header has no such function. -/
def signed8 (raw : Nat) : Int :=
  ((raw &&& 0x7F : Nat) : Int) - (if raw.testBit 7 then 128 else 0)

/-- Modelled from the spec: the last step of `readTemperature()`, which "reads
TMST_VALUE and decodes as signed 8-bit two's-complement integer in °C"; the
header has no such function. The trigger write to `TMST1` and the polling that
come before this step are not part of the definition. -/
def readTemperature_decode {σ : Type} (t : Transport σ) (d : Dev σ) : Int × Dev σ :=
  let r := getTMST_VALUE t d
  (signed8 r.1, r.2)

/-- Modelled from the spec: the code `program` computes, `VCOM_ =
round(-vcom_millivolts / 10)` clamped to [0, 511], a half rounding up; the
header has no such function. -/
def vcomCode (vcom_millivolts : Int) : Nat :=
  min 511 (((-vcom_millivolts).toNat + 5) / 10)

/-- Modelled from the spec: the register value `program` writes, the code in
field `VCOM_` and `PROG = 1`. The specification does not say where the other
bits come from; they are those of `raw`. -/
def programValue (raw : Nat) (vcom_millivolts : Int) : Nat :=
  encode 16 VCOM.PROG.mask (encode 16 VCOM.VCOM_.mask raw (vcomCode vcom_millivolts)) 1

/-- Modelled from the spec: `program(vcom_millivolts)` of section 4.4, which
fails with `OutOfRange` for a voltage outside 0..-5110 mV and otherwise writes
the `VCOM` register once; the header has no such function. -/
def program {σ : Type} (t : Transport σ) (raw : Nat) (vcom_millivolts : Int) (d : Dev σ) :
    Except Error (Dev σ) :=
  if vcom_millivolts > 0 ∨ vcom_millivolts < -5110 then Except.error Error.OutOfRange
  else Except.ok (setVCOM t (programValue raw vcom_millivolts) d)

end TPS65185_Base

namespace TPS65185_Base

/-! ## Auxiliary facts -/

/-- The call a getter issues. -/
theorem issued_get {σ : Type} (t : Transport σ) (r : Reg) (d : Dev σ) :
    Op.issued t (Op.get r) d
      = [if r = Reg.VCOM then Call.read16 r.address 16 else Call.read8 r.address 8] := by
  cases r <;> simp [Op.issued, Op.run, Reg.get, Reg.address, read8, read16, u16,
    getTMST_VALUE, getENABLE, getVADJ, getVCOM, getINT_EN1, getINT_EN2, getINT1, getINT2,
    getUPSEQ0, getUPSEQ1, getDWNSEQ0, getDWNSEQ1, getTMST1, getTMST2, getPG, getREVID,
    TMST_VALUE.__address, ENABLE.__address, VADJ.__address, VCOM.__address,
    INT_EN1.__address, INT_EN2.__address, INT1.__address, INT2.__address,
    UPSEQ0.__address, UPSEQ1.__address, DWNSEQ0.__address, DWNSEQ1.__address,
    TMST1.__address, TMST2.__address, PG.__address, REVID.__address]

/-- The call a setter issues. -/
theorem issued_set {σ : Type} (t : Transport σ) (r : Reg) (v : Nat) (d : Dev σ) :
    Op.issued t (Op.set r v) d
      = [if r = Reg.VCOM then Call.write16 r.address (u16 v) 16
         else Call.write8 r.address (u8 v) 8] := by
  cases r <;> simp [Op.issued, Op.run, Reg.set, Reg.address, write8, write16, u8, u16,
    setTMST_VALUE, setENABLE, setVADJ, setVCOM, setINT_EN1, setINT_EN2, setINT1, setINT2,
    setUPSEQ0, setUPSEQ1, setDWNSEQ0, setDWNSEQ1, setTMST1, setTMST2, setPG, setREVID,
    TMST_VALUE.__address, ENABLE.__address, VADJ.__address, VCOM.__address,
    INT_EN1.__address, INT_EN2.__address, INT1.__address, INT2.__address,
    UPSEQ0.__address, UPSEQ1.__address, DWNSEQ0.__address, DWNSEQ1.__address,
    TMST1.__address, TMST2.__address, PG.__address, REVID.__address]

/-- A mask and its complement have no common bit. -/
theorem complement_and_self (w m : Nat) : complement w m &&& m = 0 := by
  unfold complement
  by_cases h : m < 2 ^ w
  · apply Nat.eq_of_testBit_eq
    intro i
    have e : 2 ^ w - 1 - m = 2 ^ w - (m + 1) := by omega
    rw [e, Nat.testBit_and, Nat.testBit_two_pow_sub_succ h]
    cases m.testBit i <;> simp
  · have e : 2 ^ w - 1 - m = 0 := by omega
    simp [e]

/-- Writing `v < 2^k` into a run of `k` bits at position `s` and reading the
run back gives `v`. -/
theorem roundtrip_run (w raw v k s : Nat) (hv : v < 2 ^ k) :
    (((raw &&& complement w ((2 ^ k - 1) <<< s)) ||| ((v <<< s) &&& ((2 ^ k - 1) <<< s)))
        &&& ((2 ^ k - 1) <<< s)) >>> s = v := by
  have h0 := complement_and_self w ((2 ^ k - 1) <<< s)
  apply Nat.eq_of_testBit_eq
  intro i
  have h1 := congrArg (fun x => x.testBit (s + i)) h0
  simp only [Nat.testBit_and, Nat.testBit_shiftLeft, Nat.testBit_two_pow_sub_one,
    Nat.zero_testBit] at h1
  simp only [Nat.testBit_shiftRight, Nat.testBit_and, Nat.testBit_or, Nat.testBit_shiftLeft,
    Nat.testBit_two_pow_sub_one]
  have e : s + i - s = i := by omega
  have hs : s + i ≥ s := by omega
  simp only [e, hs, decide_True, Bool.true_and] at h1 ⊢
  by_cases hi : i < k
  · simp [hi] at h1 ⊢
    cases hb : v.testBit i <;> simp [hb, h1]
  · simp [hi]
    have : v < 2 ^ i := lt_of_lt_of_le hv (Nat.pow_le_pow_right (by decide) (by omega))
    exact Nat.testBit_lt_two_pow this

/-- Replacing the bits under `f` leaves the bits under a disjoint `g` alone. -/
theorem isolation_and (w raw x f g : Nat) (hfg : f &&& g = 0) (hf : f < 2 ^ w)
    (hg : g < 2 ^ w) :
    ((raw &&& complement w f) ||| (x &&& f)) &&& g = raw &&& g := by
  unfold complement
  apply Nat.eq_of_testBit_eq
  intro i
  have e : 2 ^ w - 1 - f = 2 ^ w - (f + 1) := by omega
  have h1 := congrArg (fun x => x.testBit i) hfg
  simp only [Nat.testBit_and, Nat.zero_testBit] at h1
  rw [e]
  simp only [Nat.testBit_and, Nat.testBit_or, Nat.testBit_two_pow_sub_succ hf]
  by_cases hi : i < w
  · cases hb : f.testBit i <;> cases hc : g.testBit i <;> simp_all
  · have : g < 2 ^ i := lt_of_lt_of_le hg (Nat.pow_le_pow_right (by decide) (by omega))
    simp [Nat.testBit_lt_two_pow this]

/-- Every declared mask is a run of `popcount` ones starting at its lowest set
bit. -/
theorem mask_is_run (r : Reg) :
    ∀ f ∈ r.fields, f.mask = (2 ^ popcount f.mask - 1) <<< trailing_zero_count f.mask := by
  cases r <;> decide

/-- Every declared mask fits the width of its register. -/
theorem mask_lt_width (r : Reg) : ∀ f ∈ r.fields, f.mask < 2 ^ r.width := by
  cases r <;> decide

/-- The masks of one register have pairwise no common bit. -/
theorem masks_pairwise_disjoint (r : Reg) :
    r.fields.Pairwise (fun f g => f.mask &&& g.mask = 0) := by
  cases r <;> decide

/-- Shifting the decoded bits of a run back to its position gives the bits
under the run. -/
theorem run_shift_back (x k s : Nat) :
    ((x &&& ((2 ^ k - 1) <<< s)) >>> s) <<< s = x &&& ((2 ^ k - 1) <<< s) := by
  apply Nat.eq_of_testBit_eq
  intro i
  simp only [Nat.testBit_shiftLeft, Nat.testBit_shiftRight, Nat.testBit_and,
    Nat.testBit_two_pow_sub_one]
  by_cases hi : s ≤ i
  · have e : s + (i - s) = i := by omega
    simp [hi, e]
  · simp [hi]

/-- A decoded field shifted back to its mask position is the raw value under
the mask. -/
theorem decode_shift_back (r : Reg) (f : BitField) (hf : f ∈ r.fields) (raw : Nat) :
    decode f.mask raw <<< trailing_zero_count f.mask = raw &&& f.mask := by
  have h := mask_is_run r f hf
  unfold decode
  generalize popcount f.mask = k at h
  generalize trailing_zero_count f.mask = s at h ⊢
  generalize f.mask = m at h ⊢
  subst h
  exact run_shift_back raw k s

/-- OR-ing the parts of `raw` under several masks gives the part of `raw` under
the OR of the masks. -/
theorem foldr_and_or (raw : Nat) (l : List Nat) :
    (l.map (fun m => raw &&& m)).foldr (fun x acc => x ||| acc) 0
      = raw &&& l.foldr (fun m acc => m ||| acc) 0 := by
  induction l with
  | nil => simp
  | cons m l ih =>
    simp only [List.map_cons, List.foldr_cons, ih]
    apply Nat.eq_of_testBit_eq
    intro i
    simp [Bool.and_or_distrib_left]

/-- The field masks of a register cover it. -/
theorem coverage_full (r : Reg) : coverage r.fields = 2 ^ r.width - 1 := by
  cases r <;> decide

/-- A raw value of the register's width is the OR of its decoded fields, each
shifted back to its position. -/
theorem reassemble_eq (r : Reg) (raw : Nat) (h : raw < 2 ^ r.width) :
    reassemble r.fields raw = raw := by
  have e : r.fields.map (fun f => decode f.mask raw <<< trailing_zero_count f.mask)
      = (r.fields.map (fun f => f.mask)).map (fun m => raw &&& m) := by
    rw [List.map_map]
    apply List.map_congr_left
    intro f hf
    exact decode_shift_back r f hf raw
  have hc := coverage_full r
  unfold coverage at hc
  unfold reassemble
  rw [e, foldr_and_or, hc, Nat.and_pow_two_sub_one_eq_mod, Nat.mod_eq_of_lt h]

/-- An encoded value stays within the width of the register. -/
theorem encode_lt (w m raw v : Nat) (hraw : raw < 2 ^ w) (hm : m < 2 ^ w) :
    encode w m raw v < 2 ^ w := by
  unfold encode
  apply Nat.or_lt_two_pow
  · exact lt_of_le_of_lt Nat.and_le_left hraw
  · exact lt_of_le_of_lt Nat.and_le_right hm

/-- Decoding a field of a register just encoded gives the encoded value. -/
theorem decode_same (r : Reg) (f : BitField) (hf : f ∈ r.fields) (raw v : Nat)
    (hv : v < 2 ^ popcount f.mask) :
    decode f.mask (encode r.width f.mask raw v) = v := by
  have h := mask_is_run r f hf
  unfold decode encode
  generalize popcount f.mask = k at h hv
  generalize trailing_zero_count f.mask = s at h ⊢
  generalize f.mask = m at h ⊢
  subst h
  exact roundtrip_run r.width raw v k s hv

/-- Decoding a field after encoding into a field disjoint from it gives what
it gave before. -/
theorem decode_other (r : Reg) (f g : BitField) (hf : f ∈ r.fields) (hg : g ∈ r.fields)
    (hd : f.mask &&& g.mask = 0) (raw v : Nat) :
    decode g.mask (encode r.width f.mask raw v) = decode g.mask raw := by
  unfold decode encode
  rw [isolation_and r.width raw _ f.mask g.mask hd (mask_lt_width r f hf) (mask_lt_width r g hg)]

/-- The two's-complement reading of a byte, by cases on its size. -/
theorem signed8_cases (r : Nat) (hr : r < 256) :
    signed8 r = if r < 128 then (r : Int) else (r : Int) - 256 := by
  unfold signed8
  have e : r &&& 0x7F = r % 128 := Nat.and_pow_two_sub_one_eq_mod r 7
  rw [e, Nat.testBit_to_div_mod]
  split_ifs <;> simp_all <;> omega

/-- What `program` writes for -1250 mV decodes to the code 0x07D with `PROG`
set. -/
theorem programValue_fields (raw : Nat) :
    decode VCOM.VCOM_.mask (programValue raw (-1250)) = 0x07D
      ∧ decode VCOM.PROG.mask (programValue raw (-1250)) = 1 := by
  have hP : (⟨"PROG", some VCOM.PROG.dflt, VCOM.PROG.mask, []⟩ : BitField) ∈ Reg.VCOM.fields := by
    simp [Reg.fields, VCOM.fields]
  have hV : (⟨"VCOM_", some VCOM.VCOM_.dflt, VCOM.VCOM_.mask, []⟩ : BitField)
      ∈ Reg.VCOM.fields := by
    simp [Reg.fields, VCOM.fields]
  have hc : vcomCode (-1250) = 0x07D := by decide
  constructor
  · have h1 := decode_other Reg.VCOM _ _ hP hV (by decide)
      (encode 16 VCOM.VCOM_.mask raw (vcomCode (-1250))) 1
    have h2 := decode_same Reg.VCOM _ hV raw (vcomCode (-1250)) (by decide)
    unfold programValue
    rw [hc] at h1 h2 ⊢
    exact h1.trans h2
  · exact decode_same Reg.VCOM _ hP (encode 16 VCOM.VCOM_.mask raw (vcomCode (-1250))) 1
      (by decide)

end TPS65185_Base

namespace TPS65185_Base

/-! ## Accessors -/

/-- C1: every getter makes exactly one virtual call, a read and no write, at
its register's declared address: `read16` with width 16 for `VCOM`, `read8`
with width 8 for every other register; it returns the value that call returned
and leaves the device in the state that call left. -/
theorem get_one_read {σ : Type} (t : Transport σ) (r : Reg) (d : Dev σ) :
    (r.get t d).2.log
        = d.log ++ [if r = Reg.VCOM then Call.read16 r.address 16 else Call.read8 r.address 8]
      ∧ (r.get t d).1
        = (if r = Reg.VCOM then u16 (t.read16 d.state r.address 16).1
           else u8 (t.read8 d.state r.address 8).1)
      ∧ (r.get t d).2.state
        = (if r = Reg.VCOM then (t.read16 d.state r.address 16).2
           else (t.read8 d.state r.address 8).2) := by
  cases r <;> exact ⟨rfl, rfl, rfl⟩

/-- C2: for a value `v` of the register's width, the setter makes exactly one
virtual call, a write and no read, to its register's declared address, carrying
`v` itself: the 16-bit `write` with width 16 for `VCOM`, the 8-bit `write` with
width 8 for every other register. -/
theorem set_one_write {σ : Type} (t : Transport σ) (r : Reg) (v : Nat) (d : Dev σ)
    (hv : v < 2 ^ r.width) :
    (r.set t v d).log
        = d.log ++ [if r = Reg.VCOM then Call.write16 r.address v 16 else Call.write8 r.address v 8]
      ∧ (r.set t v d).state
        = (if r = Reg.VCOM then t.write16 d.state r.address v 16
           else t.write8 d.state r.address v 8) := by
  cases r <;> simp only [Reg.width] at hv <;> norm_num at hv <;>
    simp [Reg.set, Reg.address, write8, write16, u8, u16, Nat.mod_eq_of_lt hv, hv,
      setTMST_VALUE, setENABLE, setVADJ, setVCOM, setINT_EN1, setINT_EN2, setINT1, setINT2,
      setUPSEQ0, setUPSEQ1, setDWNSEQ0, setDWNSEQ1, setTMST1, setTMST2, setPG, setREVID,
      TMST_VALUE.__address, ENABLE.__address, VADJ.__address, VCOM.__address,
      INT_EN1.__address, INT_EN2.__address, INT1.__address, INT2.__address,
      UPSEQ0.__address, UPSEQ1.__address, DWNSEQ0.__address, DWNSEQ1.__address,
      TMST1.__address, TMST2.__address, PG.__address, REVID.__address]

/-- Witness for C2: `setVCOM(0x047D)` on the register-file transport. -/
theorem set_one_write_witness :
    (0x047D < 2 ^ Reg.VCOM.width) ∧
    (Reg.VCOM.set memTransport 0x047D memDev).log = [Call.write16 3 0x047D 16] := by
  refine ⟨by decide, ?_⟩
  have h := (set_one_write memTransport Reg.VCOM 0x047D memDev (by decide)).1
  simpa [memDev, Reg.address, VCOM.__address] using h

/-! ## The register catalog -/

/-- C3: the catalog is TMST_VALUE=0, ENABLE=1, VADJ=2, VCOM=3, INT_EN1=5,
INT_EN2=6, INT1=7, INT2=8, UPSEQ0=9, UPSEQ1=10, DWNSEQ0=11, DWNSEQ1=12,
TMST1=13, TMST2=14, PG=15, REVID=16; these are all the registers, their
addresses are pairwise distinct and at most 16, none is 4, and every accessor
calls the transport at the address of its own register only. -/
theorem register_catalog :
    Reg.all.map (fun r => (r, r.address))
        = [(Reg.TMST_VALUE, 0), (Reg.ENABLE, 1), (Reg.VADJ, 2), (Reg.VCOM, 3),
           (Reg.INT_EN1, 5), (Reg.INT_EN2, 6), (Reg.INT1, 7), (Reg.INT2, 8),
           (Reg.UPSEQ0, 9), (Reg.UPSEQ1, 10), (Reg.DWNSEQ0, 11), (Reg.DWNSEQ1, 12),
           (Reg.TMST1, 13), (Reg.TMST2, 14), (Reg.PG, 15), (Reg.REVID, 16)]
      ∧ (∀ r : Reg, r ∈ Reg.all)
      ∧ Function.Injective Reg.address
      ∧ (∀ r : Reg, r.address ≤ 16 ∧ r.address ≠ 4)
      ∧ (∀ (σ : Type) (t : Transport σ) (d : Dev σ) (r : Reg) (v : Nat),
          (Op.issued t (Op.get r) d).map Call.address = [r.address]
            ∧ (Op.issued t (Op.set r v) d).map Call.address = [r.address]) := by
  refine ⟨by decide, ?_, ?_, ?_, ?_⟩
  · intro r; cases r <;> decide
  · intro r s h; cases r <;> cases s <;> first | rfl | exact absurd h (by decide)
  · intro r; cases r <;> decide
  · intro σ t d r v
    rw [issued_get, issued_set]
    cases r <;> simp [Call.address]

/-! ## Bit-fields -/

/-- C4: for every bit-field mask of the header, with `decode` and `encode` as
the specification defines them, every raw value (so every raw value of the
register's width) and every `v < 2^popcount(mask)`:
`decode(encode(raw, v)) = v`. -/
theorem decode_encode (r : Reg) (f : BitField) (hf : f ∈ r.fields) (raw v : Nat)
    (hv : v < 2 ^ popcount f.mask) :
    decode f.mask (encode r.width f.mask raw v) = v := by
  have h := mask_is_run r f hf
  unfold decode encode
  generalize popcount f.mask = k at h hv
  generalize trailing_zero_count f.mask = s at h ⊢
  generalize f.mask = m at h ⊢
  subst h
  exact roundtrip_run r.width raw v k s hv

/-- Witness for C4: writing 0x07D into the 9-bit field `VCOM_` of an all-ones
`VCOM` register and reading it back. -/
theorem decode_encode_witness :
    0x07D < 2 ^ popcount VCOM.VCOM_.mask ∧
    decode VCOM.VCOM_.mask (encode 16 VCOM.VCOM_.mask 0xFFFF 0x07D) = 0x07D :=
  ⟨by decide,
   decode_encode Reg.VCOM ⟨"VCOM_", some VCOM.VCOM_.dflt, VCOM.VCOM_.mask, []⟩
     (by simp [Reg.fields, VCOM.fields]) 0xFFFF 0x07D (by decide)⟩

/-- C5: two distinct fields of one register have disjoint masks (the
`unused_*` fields included), so encoding any value into one of them leaves the
decoded value of the other as it was, whatever the raw value. -/
theorem field_isolation (r : Reg) (f g : BitField) (hf : f ∈ r.fields) (hg : g ∈ r.fields)
    (hne : f ≠ g) (raw v : Nat) :
    f.mask &&& g.mask = 0 ∧
    decode g.mask (encode r.width f.mask raw v) = decode g.mask raw := by
  have hsymm : Symmetric (fun f g : BitField => f.mask &&& g.mask = 0) := by
    intro a b hab
    rw [Nat.land_comm]
    exact hab
  have hd : f.mask &&& g.mask = 0 :=
    (masks_pairwise_disjoint r).forall hsymm hf hg hne
  refine ⟨hd, ?_⟩
  unfold decode encode
  rw [isolation_and r.width raw _ f.mask g.mask hd (mask_lt_width r f hf) (mask_lt_width r g hg)]

/-- Witness for C5: setting `AVG` to 3 in an all-ones `VCOM` register leaves
`VCOM_` reading 0x1FF. -/
theorem field_isolation_witness :
    VCOM.AVG.mask &&& VCOM.VCOM_.mask = 0 ∧
    decode VCOM.VCOM_.mask (encode 16 VCOM.AVG.mask 0xFFFF 3)
      = decode VCOM.VCOM_.mask 0xFFFF :=
  field_isolation Reg.VCOM
    ⟨"AVG", some VCOM.AVG.dflt, VCOM.AVG.mask,
      [("AVG1x", VCOM.AVG.AVG1x), ("AVG2x", VCOM.AVG.AVG2x), ("AVG4x", VCOM.AVG.AVG4x),
       ("AVG8x", VCOM.AVG.AVG8x)]⟩
    ⟨"VCOM_", some VCOM.VCOM_.dflt, VCOM.VCOM_.mask, []⟩
    (by simp [Reg.fields, VCOM.fields]) (by simp [Reg.fields, VCOM.fields])
    (by simp) 0xFFFF 3

/-! ## Defaults -/

/-- C6: OR-ing the `dflt` of each `UPSEQ0` field, shifted to its mask position,
gives 0b11100100, and the field defaults are VDDH_UP = STROBE4,
VPOS_UP = STROBE3, VEE_UP = STROBE2, VNEG_UP = STROBE1. -/
theorem UPSEQ0_default :
    resetValue Reg.UPSEQ0.fields = 0b11100100
      ∧ UPSEQ0.VDDH_UP.dflt = UPSEQ0.VDDH_UP.STROBE4
      ∧ UPSEQ0.VPOS_UP.dflt = UPSEQ0.VPOS_UP.STROBE3
      ∧ UPSEQ0.VEE_UP.dflt = UPSEQ0.VEE_UP.STROBE2
      ∧ UPSEQ0.VNEG_UP.dflt = UPSEQ0.VNEG_UP.STROBE1
      ∧ Reg.UPSEQ0.fields.map (fun f => (f.name, f.dflt))
          = [("VDDH_UP", some 3), ("VPOS_UP", some 2), ("VEE_UP", some 1),
             ("VNEG_UP", some 0)] := by
  decide

/-- C7: OR-ing each field's `dflt`, shifted to its mask position, gives
ENABLE=0x00, VADJ=0x23, VCOM=0x047D, INT_EN1=0x7F, INT_EN2=0xFF, UPSEQ1=0x55,
DWNSEQ0=0x1E, DWNSEQ1=0xE0, TMST1=0x20, TMST2=0x78, PG=0x00, REVID=0x45; in
INT_EN1 every field defaults to 1 except DTX_EN, which defaults to 0, and in
INT_EN2 every field defaults to 1; with UPSEQ0 these are the registers whose
fields carry a `dflt`. -/
theorem reset_values :
    resetValue Reg.ENABLE.fields = 0x00
      ∧ resetValue Reg.VADJ.fields = 0x23
      ∧ resetValue Reg.VCOM.fields = 0x047D
      ∧ resetValue Reg.INT_EN1.fields = 0x7F
      ∧ resetValue Reg.INT_EN2.fields = 0xFF
      ∧ resetValue Reg.UPSEQ1.fields = 0x55
      ∧ resetValue Reg.DWNSEQ0.fields = 0x1E
      ∧ resetValue Reg.DWNSEQ1.fields = 0xE0
      ∧ resetValue Reg.TMST1.fields = 0x20
      ∧ resetValue Reg.TMST2.fields = 0x78
      ∧ resetValue Reg.PG.fields = 0x00
      ∧ resetValue Reg.REVID.fields = 0x45
      ∧ Reg.INT_EN1.fields.map (fun f => (f.name, f.dflt))
          = [("DTX_EN", some 0), ("TSD_EN", some 1), ("HOT_EN", some 1),
             ("TMST_HOT_EN", some 1), ("TMST_COLD_EN", some 1), ("UVLO_EN", some 1),
             ("ACQC_EN", some 1), ("PRGC_EN", some 1)]
      ∧ Reg.INT_EN2.fields.map (fun f => f.dflt) = List.replicate 8 (some 1)
      ∧ Reg.all.filter (fun r => r.fields.any (fun f => f.dflt.isSome))
          = [Reg.ENABLE, Reg.VADJ, Reg.VCOM, Reg.INT_EN1, Reg.INT_EN2, Reg.UPSEQ0,
             Reg.UPSEQ1, Reg.DWNSEQ0, Reg.DWNSEQ1, Reg.TMST1, Reg.TMST2, Reg.PG, Reg.REVID] := by
  decide

/-! ## Interrupt and power-good registers -/

/-- C8, as stated, fails: `INT_EN1` declares eight fields, so it is not true
that each of INT_EN1, INT_EN2, INT1 and INT2 declares exactly seven single-bit
fields. -/
theorem interrupt_registers_not_seven :
    Reg.INT_EN1.fields.map (fun f => f.name)
        = ["DTX_EN", "TSD_EN", "HOT_EN", "TMST_HOT_EN", "TMST_COLD_EN", "UVLO_EN",
           "ACQC_EN", "PRGC_EN"]
      ∧ ¬ (∀ r ∈ [Reg.INT_EN1, Reg.INT_EN2, Reg.INT1, Reg.INT2],
            r.fields.length = 7 ∧ ∀ f ∈ r.fields, popcount f.mask = 1) := by
  decide

/-- C8, amended: each of INT_EN1, INT_EN2, INT1 and INT2 declares exactly
eight fields, every one a single bit, none of them padding, and together they
fill the byte. -/
theorem interrupt_registers_eight_bits :
    Reg.INT_EN1.fields.map (fun f => (popcount f.mask, f.isUnused))
        = List.replicate 8 (1, false)
      ∧ Reg.INT_EN2.fields.map (fun f => (popcount f.mask, f.isUnused))
        = List.replicate 8 (1, false)
      ∧ Reg.INT1.fields.map (fun f => (popcount f.mask, f.isUnused))
        = List.replicate 8 (1, false)
      ∧ Reg.INT2.fields.map (fun f => (popcount f.mask, f.isUnused))
        = List.replicate 8 (1, false)
      ∧ Reg.INT_EN1.fields.map (fun f => f.mask) = [128, 64, 32, 16, 8, 4, 2, 1]
      ∧ Reg.INT_EN2.fields.map (fun f => f.mask) = [128, 64, 32, 16, 8, 4, 2, 1]
      ∧ Reg.INT1.fields.map (fun f => f.mask) = [128, 64, 32, 16, 8, 4, 2, 1]
      ∧ Reg.INT2.fields.map (fun f => f.mask) = [128, 64, 32, 16, 8, 4, 2, 1] := by
  decide

/-- C9, as stated, fails: leaving the `unused_*` padding out, `PG` declares
six fields, not five. -/
theorem PG_not_five_fields :
    (Reg.PG.fields.filter (fun f => !f.isUnused)).map (fun f => f.name)
        = ["VB_PG", "VDDH_PG", "VN_PG", "VPOS_PG", "VEE_PG", "VNEG_PG"]
      ∧ ¬ ((Reg.PG.fields.filter (fun f => !f.isUnused)).length = 5
            ∧ ∀ f ∈ Reg.PG.fields.filter (fun f => !f.isUnused),
                popcount f.mask = 1 ∧ f.dflt = some 0) := by
  decide

/-- C9, amended: leaving the `unused_*` padding out, `PG` declares exactly six
power-good status fields (VB_PG, VDDH_PG, VN_PG, VPOS_PG, VEE_PG, VNEG_PG),
each a single bit with default 0. -/
theorem PG_six_status_bits :
    (Reg.PG.fields.filter (fun f => !f.isUnused)).map
        (fun f => (f.name, popcount f.mask, f.dflt))
      = [("VB_PG", 1, some 0), ("VDDH_PG", 1, some 0), ("VN_PG", 1, some 0),
         ("VPOS_PG", 1, some 0), ("VEE_PG", 1, some 0), ("VNEG_PG", 1, some 0)] := by
  decide

/-! ## Read-only registers -/

/-- C10, as stated, fails: `setREVID(0x45)` issues a transport write to
address 16, and likewise `setINT1`, `setINT2` and `setPG` write to 7, 8
and 15. -/
theorem setREVID_writes :
    (Op.run memTransport (Op.set Reg.REVID 0x45) memDev).log = [Call.write8 16 0x45 8]
      ∧ (Op.run memTransport (Op.set Reg.INT1 0) memDev).log = [Call.write8 7 0 8]
      ∧ (Op.run memTransport (Op.set Reg.INT2 0) memDev).log = [Call.write8 8 0 8]
      ∧ (Op.run memTransport (Op.set Reg.PG 0) memDev).log = [Call.write8 15 0 8]
      ∧ ¬ (∀ (op : Op) (d : Dev (Nat → Nat)), ∀ c ∈ Op.issued memTransport op d,
            c.isWrite = true → c.address ∉ [7, 8, 15, 16]) := by
  refine ⟨by decide, by decide, by decide, by decide, ?_⟩
  intro h
  exact absurd (h (Op.set Reg.REVID 0x45) memDev (Call.write8 16 0x45 8) (by decide) rfl)
    (by decide)

/-- C10, amended: an operation issues a transport write to address 7, 8, 15
or 16 exactly when it is one of the setters `setINT1`, `setINT2`, `setPG`,
`setREVID`; each of these issues that one call, the 8-bit write of its value to
its own register's address, and a getter issues no write at all. -/
theorem read_only_written_only_by_own_setter {σ : Type} (t : Transport σ) (op : Op)
    (d : Dev σ) (r : Reg) (v : Nat) :
    ((∃ c ∈ Op.issued t op d, c.isWrite = true ∧ c.address ∈ [7, 8, 15, 16])
        ↔ ∃ x, op = Op.set Reg.INT1 x ∨ op = Op.set Reg.INT2 x ∨ op = Op.set Reg.PG x
            ∨ op = Op.set Reg.REVID x)
      ∧ Op.issued t (Op.set Reg.INT1 v) d = [Call.write8 7 (u8 v) 8]
      ∧ Op.issued t (Op.set Reg.INT2 v) d = [Call.write8 8 (u8 v) 8]
      ∧ Op.issued t (Op.set Reg.PG v) d = [Call.write8 15 (u8 v) 8]
      ∧ Op.issued t (Op.set Reg.REVID v) d = [Call.write8 16 (u8 v) 8]
      ∧ (Op.issued t (Op.get r) d).map Call.isWrite = [false] := by
  refine ⟨?_, ?_, ?_, ?_, ?_, ?_⟩
  · cases op with
    | get q =>
      rw [issued_get]
      cases q <;> simp [Call.isWrite]
    | set q x =>
      rw [issued_set]
      cases q <;> simp [Call.isWrite, Call.address, Reg.address,
        TMST_VALUE.__address, ENABLE.__address, VADJ.__address, VCOM.__address,
        INT_EN1.__address, INT_EN2.__address, INT1.__address, INT2.__address,
        UPSEQ0.__address, UPSEQ1.__address, DWNSEQ0.__address, DWNSEQ1.__address,
        TMST1.__address, TMST2.__address, PG.__address, REVID.__address]
  · rw [issued_set]; rfl
  · rw [issued_set]; rfl
  · rw [issued_set]; rfl
  · rw [issued_set]; rfl
  · rw [issued_get]
    cases r <;> rfl

/-! ## Named values and units -/

/-- C11: `VADJ.VSET` is the 3-bit field at bits [2:0]; its named values are
V15 = 0b011, V14_75 = 0b100, V14_5 = 0b101, V15_25 = 0b110, with 0, 1, 2 named
`unused_0..2` and 0b111 named `unused_3`; the eight names take each of the
eight encodings exactly once, and the default is V15. -/
theorem VSET_values :
    VADJ.VSET.mask = 0b111
      ∧ popcount VADJ.VSET.mask = 3
      ∧ trailing_zero_count VADJ.VSET.mask = 0
      ∧ (Reg.VADJ.fields.filter (fun f => f.name = "VSET")).map (fun f => f.values)
          = [[("unused_0", 0), ("unused_1", 1), ("unused_2", 2), ("V15", 0b011),
              ("V14_75", 0b100), ("V14_5", 0b101), ("V15_25", 0b110), ("unused_3", 0b111)]]
      ∧ [VADJ.VSET.unused_0, VADJ.VSET.unused_1, VADJ.VSET.unused_2, VADJ.VSET.V15,
          VADJ.VSET.V14_75, VADJ.VSET.V14_5, VADJ.VSET.V15_25, VADJ.VSET.unused_3]
          = List.range 8
      ∧ VADJ.VSET.dflt = VADJ.VSET.V15 := by
  decide

/-- C12: in `VCOM`, ACQ is bit 15, PROG bit 14, HiZ bit 13, AVG bits [12:11]
with codes 0, 1, 2, 3 for 1x, 2x, 4x, 8x (the count is 2^code), and VCOM_ bits
[8:0]; for every raw value (so every 16-bit one) the decoded VCOM_ is at most
511 and the voltage -10 mV * VCOM_ lies in -5110..0 mV; 0x000 gives 0 mV,
0x07D gives -1250 mV, 0x1FF gives -5110 mV, as in the header's table. -/
theorem VCOM_layout (raw : Nat) :
    Reg.VCOM.fields.map (fun f => (f.name, f.mask))
        = [("ACQ", 2 ^ 15), ("PROG", 2 ^ 14), ("HiZ", 2 ^ 13), ("AVG", 2 ^ 12 + 2 ^ 11),
           ("unused_0", 2 ^ 10 + 2 ^ 9), ("VCOM_", 2 ^ 9 - 1)]
      ∧ [(1, VCOM.AVG.AVG1x), (2, VCOM.AVG.AVG2x), (4, VCOM.AVG.AVG4x), (8, VCOM.AVG.AVG8x)]
          = [0, 1, 2, 3].map (fun code => (2 ^ code, code))
      ∧ decode VCOM.VCOM_.mask raw ≤ 511
      ∧ -5110 ≤ VCOM.VCOM_.millivolts (decode VCOM.VCOM_.mask raw)
      ∧ VCOM.VCOM_.millivolts (decode VCOM.VCOM_.mask raw) ≤ 0
      ∧ VCOM.VCOM_.millivolts 0x000 = 0
      ∧ VCOM.VCOM_.millivolts 0x07D = -1250
      ∧ VCOM.VCOM_.millivolts 0x1FF = -5110
      ∧ VCOM.VCOM_.rows.map (fun p => VCOM.VCOM_.millivolts p.1)
          = VCOM.VCOM_.rows.map (fun p => p.2) := by
  have hz : trailing_zero_count VCOM.VCOM_.mask = 0 := by decide
  have hm : VCOM.VCOM_.mask = 511 := by decide
  have hle : decode VCOM.VCOM_.mask raw ≤ 511 := by
    unfold decode
    rw [hz, hm, Nat.shiftRight_zero]
    exact Nat.and_le_right
  refine ⟨by decide, by decide, hle, ?_, ?_, by decide, by decide, by decide, by decide⟩
  · unfold VCOM.VCOM_.millivolts
    omega
  · unfold VCOM.VCOM_.millivolts
    omega

/-- C13: `program(-1250)` is in range and writes the `VCOM` register once, with
a value whose VCOM_ field is 0x07D (125), the field's `dflt`, and whose PROG
bit is 1, whatever the other bits were; on a transport that keeps what is
written, reading the register back returns that value, and -10 mV times its
VCOM_ field is exactly -1250 mV. -/
theorem program_roundtrip {σ : Type} (t : Transport σ) (d : Dev σ) (m : Dev (Nat → Nat))
    (raw : Nat) (hraw : raw < 2 ^ 16) :
    vcomCode (-1250) = 0x07D
      ∧ VCOM.VCOM_.dflt = 0x07D
      ∧ program t raw (-1250) d = Except.ok (setVCOM t (programValue raw (-1250)) d)
      ∧ Op.issued t (Op.set Reg.VCOM (programValue raw (-1250))) d
          = [Call.write16 3 (programValue raw (-1250)) 16]
      ∧ decode VCOM.VCOM_.mask (programValue raw (-1250)) = 0x07D
      ∧ decode VCOM.PROG.mask (programValue raw (-1250)) = 1
      ∧ (getVCOM memTransport (setVCOM memTransport (programValue raw (-1250)) m)).1
          = programValue raw (-1250)
      ∧ VCOM.VCOM_.millivolts (decode VCOM.VCOM_.mask
          (getVCOM memTransport (setVCOM memTransport (programValue raw (-1250)) m)).1)
          = -1250 := by
  have hlt : programValue raw (-1250) < 2 ^ 16 :=
    encode_lt 16 _ _ _ (encode_lt 16 _ _ _ hraw (by decide)) (by decide)
  have hu : u16 (programValue raw (-1250)) = programValue raw (-1250) :=
    Nat.mod_eq_of_lt hlt
  have hback : (getVCOM memTransport (setVCOM memTransport (programValue raw (-1250)) m)).1
      = programValue raw (-1250) := by
    simp only [getVCOM, setVCOM, read16, write16, memTransport, hu]
    simp [hu]
  have hf := programValue_fields raw
  refine ⟨by decide, by decide, ?_, ?_, hf.1, hf.2, hback, ?_⟩
  · simp [program]
  · rw [issued_set, hu]
    rfl
  · rw [hback, hf.1]
    decide

/-- Witness for C13: programming -1250 mV over an all-ones register. -/
theorem program_roundtrip_witness :
    (0xFFFF < 2 ^ 16)
      ∧ program memTransport 0xFFFF (-1250) memDev
          = Except.ok (setVCOM memTransport (programValue 0xFFFF (-1250)) memDev)
      ∧ VCOM.VCOM_.millivolts (decode VCOM.VCOM_.mask
          (getVCOM memTransport (setVCOM memTransport (programValue 0xFFFF (-1250)) memDev)).1)
          = -1250 :=
  have h := program_roundtrip memTransport memDev memDev 0xFFFF (by decide)
  ⟨by decide, h.2.2.1, h.2.2.2.2.2.2.2⟩

/-- C14: the temperature read is the `TMST_VALUE` byte taken as a signed 8-bit
two's-complement number: a raw byte `r` gives `r` when `r < 128` and `r - 256`
otherwise, also when the byte comes from `getTMST_VALUE`, which itself returns
the unsigned `r`, on a transport whose register 0 holds `r`; 0x19 gives 25,
0xFF gives -1, 0xF6 gives -10, 0x55 gives 85, and every row of the header's
table agrees. -/
theorem temperature_signed (r : Nat) (hr : r < 256) :
    signed8 r = (if r < 128 then (r : Int) else (r : Int) - 256)
      ∧ (getTMST_VALUE memTransport ⟨fun a => if a = 0 then r else 0, []⟩).1 = r
      ∧ (readTemperature_decode memTransport ⟨fun a => if a = 0 then r else 0, []⟩).1
          = (if r < 128 then (r : Int) else (r : Int) - 256)
      ∧ (readTemperature_decode memTransport ⟨fun a => if a = 0 then r else 0, []⟩).2.log
          = [Call.read8 0 8]
      ∧ signed8 0x19 = 25 ∧ signed8 0xFF = -1 ∧ signed8 0xF6 = -10 ∧ signed8 0x55 = 85
      ∧ TMST_VALUE.rows.map (fun p => signed8 p.1) = TMST_VALUE.rows.map (fun p => p.2) := by
  have hu : u8 r = r := Nat.mod_eq_of_lt hr
  have hread : (readTemperature_decode memTransport ⟨fun a => if a = 0 then r else 0, []⟩).1
      = signed8 r := by
    simp only [readTemperature_decode, getTMST_VALUE, read8, memTransport]
    simp [u16, TMST_VALUE.__address, hu]
  refine ⟨signed8_cases r hr, ?_, ?_, by rfl, by decide, by decide, by decide, by decide,
    by decide⟩
  · simp only [getTMST_VALUE, read8, memTransport]
    simp [u16, TMST_VALUE.__address, hu]
  · rw [hread]
    exact signed8_cases r hr

/-- Witness for C14: the raw byte 0xF6 reads as -10 degrees Celsius. -/
theorem temperature_signed_witness :
    (0xF6 < 256)
      ∧ (readTemperature_decode memTransport ⟨fun a => if a = 0 then 0xF6 else 0, []⟩).1
          = -10 :=
  ⟨by decide, by simpa using (temperature_signed 0xF6 (by decide)).2.2.1⟩

/-- C15: `TMST2` holds TMST_COLD in bits [7:4] and TMST_HOT in bits [3:0], four
bits each; with cold = -7 + TMST_COLD and hot = 42 + TMST_HOT the defaults give
cold = 0 and hot = 50, and over the sixteen 4-bit values cold takes the values
-7..8 and hot the values 42..57. -/
theorem TMST2_thresholds :
    Reg.TMST2.fields.map
        (fun f => (f.name, f.mask, trailing_zero_count f.mask, popcount f.mask))
        = [("TMST_COLD", 0b11110000, 4, 4), ("TMST_HOT", 0b00001111, 0, 4)]
      ∧ TMST2.TMST_COLD.celsius TMST2.TMST_COLD.dflt = 0
      ∧ TMST2.TMST_HOT.celsius TMST2.TMST_HOT.dflt = 50
      ∧ (List.range (2 ^ 4)).map TMST2.TMST_COLD.celsius
          = [-7, -6, -5, -4, -3, -2, -1, 0, 1, 2, 3, 4, 5, 6, 7, 8]
      ∧ (List.range (2 ^ 4)).map TMST2.TMST_HOT.celsius
          = [42, 43, 44, 45, 46, 47, 48, 49, 50, 51, 52, 53, 54, 55, 56, 57] := by
  decide

/-! ## Invariants of the field tables -/

/-- C16: every declared mask is non-zero and contiguous: shifted down by its
trailing zeros and increased by one it is a power of two, namely
2^popcount(mask), so its set bits form one unbroken run. -/
theorem mask_contiguous (r : Reg) (f : BitField) (hf : f ∈ r.fields) :
    f.mask ≠ 0
      ∧ (f.mask >>> trailing_zero_count f.mask) + 1 = 2 ^ popcount f.mask
      ∧ f.mask = (2 ^ popcount f.mask - 1) <<< trailing_zero_count f.mask := by
  revert f
  cases r <;> decide

/-- Witness for C16: the mask of `AVG` in `VCOM`, bits [12:11]. -/
theorem mask_contiguous_witness :
    VCOM.AVG.mask ≠ 0 ∧ (VCOM.AVG.mask >>> 11) + 1 = 2 ^ 2 :=
  have h := mask_contiguous Reg.VCOM
    ⟨"AVG", some VCOM.AVG.dflt, VCOM.AVG.mask,
      [("AVG1x", VCOM.AVG.AVG1x), ("AVG2x", VCOM.AVG.AVG2x), ("AVG4x", VCOM.AVG.AVG4x),
       ("AVG8x", VCOM.AVG.AVG8x)]⟩
    (by simp [Reg.fields, VCOM.fields])
  ⟨h.1, h.2.1⟩

/-- C17: a declared `dflt` is representable in its field: it is below
2^popcount(mask), and shifted to the mask position it has no bit outside the
mask. -/
theorem dflt_representable (r : Reg) (f : BitField) (hf : f ∈ r.fields) (d : Nat)
    (hd : f.dflt = some d) :
    d < 2 ^ popcount f.mask
      ∧ (d <<< trailing_zero_count f.mask) &&& f.mask = d <<< trailing_zero_count f.mask
      ∧ (d <<< trailing_zero_count f.mask) &&& complement r.width f.mask = 0 := by
  have h : ∀ f ∈ r.fields, ∀ d ∈ f.dflt,
      d < 2 ^ popcount f.mask
        ∧ (d <<< trailing_zero_count f.mask) &&& f.mask = d <<< trailing_zero_count f.mask
        ∧ (d <<< trailing_zero_count f.mask) &&& complement r.width f.mask = 0 := by
    cases r <;> decide
  exact h f hf d hd

/-- Witness for C17: field `unused_0` of `VADJ`, five bits at [7:3] with
default 0b00100. -/
theorem dflt_representable_witness :
    VADJ.unused_0.dflt < 2 ^ popcount VADJ.unused_0.mask
      ∧ (VADJ.unused_0.dflt <<< trailing_zero_count VADJ.unused_0.mask)
          &&& VADJ.unused_0.mask
        = VADJ.unused_0.dflt <<< trailing_zero_count VADJ.unused_0.mask :=
  have h := dflt_representable Reg.VADJ
    ⟨"unused_0", some VADJ.unused_0.dflt, VADJ.unused_0.mask, []⟩
    (by simp [Reg.fields, VADJ.fields]) VADJ.unused_0.dflt rfl
  ⟨h.1, h.2.1⟩

/-- C18: the field masks of a register OR to 0xFFFF for `VCOM` and to 0xFF for
every other register; every bit of the register lies under exactly one field
mask; a raw value of the register's width is the OR of its decoded fields
shifted back into place, so two raw values with the same decoded fields are
equal. -/
theorem fields_partition_register (r : Reg) (raw₁ raw₂ : Nat) (h₁ : raw₁ < 2 ^ r.width)
    (h₂ : raw₂ < 2 ^ r.width)
    (h : ∀ f ∈ r.fields, decode f.mask raw₁ = decode f.mask raw₂) :
    coverage r.fields = (if r = Reg.VCOM then 0xFFFF else 0xFF)
      ∧ (∀ i < r.width, (r.fields.filter (fun f => f.mask.testBit i)).length = 1)
      ∧ reassemble r.fields raw₁ = raw₁
      ∧ raw₁ = raw₂ := by
  refine ⟨?_, ?_, reassemble_eq r raw₁ h₁, ?_⟩
  · cases r <;> decide
  · cases r <;> decide
  · rw [← reassemble_eq r raw₁ h₁, ← reassemble_eq r raw₂ h₂]
    unfold reassemble
    congr 1
    apply List.map_congr_left
    intro f hf
    rw [h f hf]

/-- Witness for C18: the `VCOM` reset value 0x047D. -/
theorem fields_partition_register_witness :
    coverage Reg.VCOM.fields = 0xFFFF ∧ reassemble Reg.VCOM.fields 0x047D = 0x047D :=
  have h := fields_partition_register Reg.VCOM 0x047D 0x047D (by decide) (by decide)
    (fun _ _ => rfl)
  ⟨h.1, h.2.2.1⟩

/-- C19: the named values of a field are representable in it (below
2^popcount(mask)) and pairwise distinct, and a field that has named values and
a `dflt` has its `dflt` among them. -/
theorem named_values_sound (r : Reg) (f : BitField) (hf : f ∈ r.fields) :
    (∀ p ∈ f.values, p.2 < 2 ^ popcount f.mask)
      ∧ (f.values.map (fun p => p.2)).Nodup
      ∧ (f.values = [] ∨ f.dflt = none ∨ ∃ p ∈ f.values, f.dflt = some p.2) := by
  revert f
  cases r <;> decide

/-- Witness for C19: field `MJREV` of `REVID`, whose default 0b01 is
TPS65185_1p1. -/
theorem named_values_sound_witness :
    ([REVID.MJREV.TPS65185_1p0, REVID.MJREV.TPS65185_1p1, REVID.MJREV.TPS65185_1p2]).Nodup
      ∧ REVID.MJREV.dflt = REVID.MJREV.TPS65185_1p1 :=
  have h := named_values_sound Reg.REVID
    ⟨"MJREV", some REVID.MJREV.dflt, REVID.MJREV.mask,
      [("TPS65185_1p0", REVID.MJREV.TPS65185_1p0), ("TPS65185_1p1", REVID.MJREV.TPS65185_1p1),
       ("TPS65185_1p2", REVID.MJREV.TPS65185_1p2)]⟩
    (by simp [Reg.fields, REVID.fields])
  ⟨h.2.1, by decide⟩

/-- C20: the four field defaults of `UPSEQ0` are pairwise distinct, and so are
the four of `DWNSEQ0`; each list of defaults is a permutation of STROBE1..4, so
each strobe is the default of exactly one rail in each direction. -/
theorem default_strobes_permutation :
    Reg.UPSEQ0.fields.map (fun f => (f.name, f.dflt))
        = [("VDDH_UP", some UPSEQ0.VDDH_UP.STROBE4), ("VPOS_UP", some UPSEQ0.VPOS_UP.STROBE3),
           ("VEE_UP", some UPSEQ0.VEE_UP.STROBE2), ("VNEG_UP", some UPSEQ0.VNEG_UP.STROBE1)]
      ∧ Reg.DWNSEQ0.fields.map (fun f => (f.name, f.dflt))
        = [("VDDH_DWN", some DWNSEQ0.VDDH_DWN.STROBE1),
           ("VPOS_DWN", some DWNSEQ0.VPOS_DWN.STROBE2),
           ("VEE_DWN", some DWNSEQ0.VEE_DWN.STROBE4),
           ("VNEG_DWN", some DWNSEQ0.VNEG_DWN.STROBE3)]
      ∧ (Reg.UPSEQ0.fields.map (fun f => f.dflt)).Nodup
      ∧ (Reg.DWNSEQ0.fields.map (fun f => f.dflt)).Nodup
      ∧ (Reg.UPSEQ0.fields.map (fun f => f.dflt)).Perm
          [some UPSEQ0.VDDH_UP.STROBE1, some UPSEQ0.VDDH_UP.STROBE2,
           some UPSEQ0.VDDH_UP.STROBE3, some UPSEQ0.VDDH_UP.STROBE4]
      ∧ (Reg.DWNSEQ0.fields.map (fun f => f.dflt)).Perm
          [some DWNSEQ0.VDDH_DWN.STROBE1, some DWNSEQ0.VDDH_DWN.STROBE2,
           some DWNSEQ0.VDDH_DWN.STROBE3, some DWNSEQ0.VDDH_DWN.STROBE4]
      ∧ [0, 1, 2, 3].map (fun s => (Reg.UPSEQ0.fields.filter (fun f => f.dflt = some s)).length)
          = [1, 1, 1, 1]
      ∧ [0, 1, 2, 3].map (fun s => (Reg.DWNSEQ0.fields.filter (fun f => f.dflt = some s)).length)
          = [1, 1, 1, 1] := by
  decide

end TPS65185_Base
